import Mathlib

set_option autoImplicit false

/-!
Shallow embedding of the mapcase weather service core
(`src/api/app/core/http_cache.py`, `src/api/app/core/geo.py`,
`src/api/app/clients/nws_client.py`, `src/api/app/db/nws_repo.py`,
`src/api/app/services/nws_weather_service.py`).

Modelling conventions:
* Python `float` coordinates are modelled by `PFloat` (NaN or a rational);
  the only float operations the code performs on coordinates are `<=`
  comparisons and the `x != x` NaN test, which `PFloat` mirrors with IEEE
  semantics (comparisons involving NaN are false).
* Absolute instants (`datetime`) are modelled as `Int`; external datetime
  parsing/formatting (`email.utils.parsedate_to_datetime`, `strftime`) is
  abstracted as functions supplied in the environment.
* JSON values are the inductive `JVal`; Python truthiness of JSON values is
  `jtruthy`.
* Network I/O and database state are explicit: the environment carries an
  oracle mapping each outbound request to its raw outcome, and every
  repository function is a pure function on a `Db` value.  Each network or
  database access performed is recorded in an `Effect` list.
* Python exceptions propagating out of the service are modelled as
  `Except.error`.
-/

/-- JSON value, as produced by `resp.json()`. -/
inductive JVal where
  | jnull
  | jbool (b : Bool)
  | jnum (q : ℚ)
  | jstr (s : String)
  | jarr (elems : List JVal)
  | jobj (fields : List (String × JVal))

/-- Python truthiness of a JSON value (`bool(x)` for the decoded value). -/
def jtruthy : JVal → Bool
  | .jnull => false
  | .jbool b => b
  | .jnum q => q != 0
  | .jstr s => s ≠ ""
  | .jarr xs => !xs.isEmpty
  | .jobj fs => !fs.isEmpty

/-- Is the JSON value a dict (`isinstance(data, dict)`)? -/
def JVal.isObj : JVal → Bool
  | .jobj _ => true
  | _ => false

/-- Python type name of a decoded JSON value (for the
`unexpected JSON type` message; the int/float distinction is not modelled). -/
def jtypeName : JVal → String
  | .jnull => "NoneType"
  | .jbool _ => "bool"
  | .jnum _ => "number"
  | .jstr _ => "str"
  | .jarr _ => "list"
  | .jobj _ => "dict"

/-- Truthiness of an `Optional[str]` (None and the empty string are falsy). -/
def truthyS : Option String → Bool
  | some s => s ≠ ""
  | none => false

/-- Python `a or b` on `Optional[str]` values. -/
def pyOrS (a b : Option String) : Option String :=
  if truthyS a then a else b

/-- Python `a or b` on `Optional[datetime]` values (datetimes are always truthy). -/
def pyOrD (a b : Option Int) : Option Int :=
  match a with
  | some v => some v
  | none => b

/-- Truthiness of an `Optional[dict]` JSON body (`not res.json_data`). -/
def truthyJO : Option JVal → Bool
  | some v => jtruthy v
  | none => false

/-- Header map, modelled as a `Mapping[str, str]` (first-match association list,
case-sensitive keys, matching Python dict `.get`). -/
def Headers := List (String × String)

/-- `headers.get(k)`. -/
def hget (h : Headers) (k : String) : Option String :=
  (List.find? (fun p => p.1 == k) h).map (·.2)

/- ------------------------------------------------------------------ -/
/- `app/core/http_cache.py`                                            -/
/- ------------------------------------------------------------------ -/

/-- The ASCII digits found by the `\d+` part of the `max-age=(\d+)` pattern. -/
def asciiDigits (cs : List Char) : List Char :=
  cs.takeWhile (fun c => c.isDigit)

/-- Numeric value of a digit run (`int(m.group(1))`). -/
def digitsToNat (cs : List Char) : Nat :=
  cs.foldl (fun a c => a * 10 + (c.toNat - 48)) 0

/-- The literal part of the `_MAX_AGE_RE` pattern. -/
def maxAgeKey : List Char := "max-age=".toList

/-- Leftmost match of `max-age=(\d+)` in a character list (`re.search`). -/
def maxAgeSearchAux : List Char → Option Nat
  | [] => none
  | c :: rest =>
    if maxAgeKey.isPrefixOf (c :: rest) then
      let ds := asciiDigits ((c :: rest).drop maxAgeKey.length)
      if ds.isEmpty then maxAgeSearchAux rest else some (digitsToNat ds)
    else maxAgeSearchAux rest

/-- `_MAX_AGE_RE.search(value)`, returning the captured seconds. -/
def maxAgeSearch (s : String) : Option Nat :=
  maxAgeSearchAux s.toList

/-- `headers.get("cache-control") or headers.get("Cache-Control") or ""`. -/
def cacheControlValue (headers : Headers) : String :=
  (pyOrS (hget headers "cache-control") (hget headers "Cache-Control")).getD ""

/-- `headers.get("expires") or headers.get("Expires")`. -/
def expiresValue (headers : Headers) : Option String :=
  pyOrS (hget headers "expires") (hget headers "Expires")

/-- `compute_expires_at(headers, default_ttl_seconds)`.  `parseDate` models
`parse_http_datetime` (the stdlib HTTP-date parser, `None` on failure) and
`now` models `utcnow()`. -/
def compute_expires_at (parseDate : String → Option Int) (headers : Headers)
    (default_ttl_seconds : Nat) (now : Int) : Int :=
  let cache_control := cacheControlValue headers
  match maxAgeSearch cache_control with
  | some secs => now + (secs : Int)
  | none =>
    let expires := expiresValue headers
    if truthyS expires then
      match parseDate (expires.getD "") with
      | some dt => dt
      | none => now + (default_ttl_seconds : Int)
    else
      now + (default_ttl_seconds : Int)

/-- `get_etag(headers)`. -/
def get_etag (headers : Headers) : Option String :=
  pyOrS (hget headers "etag") (hget headers "ETag")

/-- `get_last_modified(headers)`. -/
def get_last_modified (parseDate : String → Option Int) (headers : Headers) : Option Int :=
  let lm := pyOrS (hget headers "last-modified") (hget headers "Last-Modified")
  if truthyS lm then parseDate (lm.getD "") else none

/- ------------------------------------------------------------------ -/
/- `app/core/geo.py`                                                   -/
/- ------------------------------------------------------------------ -/

/-- A Python float as the coordinate-validation code observes it:
NaN or a real (rational) value. -/
inductive PFloat where
  | nan
  | val (q : ℚ)
deriving DecidableEq

/-- The `lat != lat` NaN test. -/
def PFloat.selfNe : PFloat → Bool
  | .nan => true
  | .val _ => false

/-- IEEE `<=` on floats: false whenever either operand is NaN. -/
def PFloat.fle : PFloat → PFloat → Bool
  | .val a, .val b => decide (a ≤ b)
  | _, _ => false

/-- 39.7199 (the decimal value of the source literal, in kernel-reducible form). -/
def PA_MIN_LAT : ℚ := mkRat 397199 10000

/-- 42.5167. -/
def PA_MAX_LAT : ℚ := mkRat 425167 10000

/-- -80.5243. -/
def PA_MIN_LON : ℚ := mkRat (-805243) 10000

/-- -74.707. -/
def PA_MAX_LON : ℚ := mkRat (-74707) 1000

/-- `validate_lat_lon(lat, lon)`; a raised `ValueError` is `Except.error`. -/
def validate_lat_lon (lat lon : PFloat) : Except String Unit :=
  if lat.selfNe || lon.selfNe then
    .error "lat/lon must be real numbers"
  else if !(PFloat.fle (.val (-90)) lat && PFloat.fle lat (.val 90)) then
    .error "lat out of range (-90..90)"
  else if !(PFloat.fle (.val (-180)) lon && PFloat.fle lon (.val 180)) then
    .error "lon out of range (-180..180)"
  else
    .ok ()

/-- `assert_in_pa_bounds(lat, lon)`. -/
def assert_in_pa_bounds (lat lon : PFloat) : Except String Unit :=
  if PFloat.fle (.val PA_MIN_LAT) lat && PFloat.fle lat (.val PA_MAX_LAT)
      && PFloat.fle (.val PA_MIN_LON) lon && PFloat.fle lon (.val PA_MAX_LON) then
    .ok ()
  else
    .error "lat/lon is outside PA bounds (MVP restriction)"

/- ------------------------------------------------------------------ -/
/- `app/clients/nws_client.py`                                         -/
/- ------------------------------------------------------------------ -/

/-- Raw HTTP response, as seen before any processing by `fetch_json`. -/
structure RawResponse where
  url : String
  status_code : Nat
  content : String
  headers : Headers

/-- Outcome of one outbound request: either the `httpx` call raised
(transport failure: connect/timeout/DNS, carrying the classified
`TypeName: message` text) or a response arrived. -/
inductive FetchOutcome where
  | transportError (msg : String)
  | response (r : RawResponse)

/-- `NwsFetchResult`. -/
structure NwsFetchResult where
  url : String
  status_code : Nat
  json_data : Option JVal
  headers : Headers
  etag : Option String
  last_modified : Option Int
  error : Option String := none
  body_preview : Option String := none

/-- Identity of an outbound request (URL plus the conditional headers the
client actually sends; `points` requests are identified structurally by
their coordinate since the URL is an f-string over the floats). -/
inductive NetReq where
  | points (lat lon : PFloat)
  | getUrl (url : String) (if_none_match : Option String) (if_modified_since : Option String)
deriving DecidableEq

/-- The client only sends a conditional header when its value is truthy
(`if if_none_match: headers[...] = ...`). -/
def normHeaderVal (o : Option String) : Option String :=
  if truthyS o then o else none

/-- External environment of one service call: parsers/formatters for the
stdlib pieces, the geodesic distance used by the PostGIS query, the network
oracle, and the current instant (`utcnow()`); the call is treated as
instantaneous. -/
structure Env where
  parseJson : String → Except String JVal
  parseDate : String → Option Int
  formatHttpDate : Int → String
  floatRepr : PFloat → String
  pointsUrl : PFloat → PFloat → String
  dist : PFloat → PFloat → PFloat → PFloat → ℚ
  oracle : NetReq → FetchOutcome
  now : Int

/-- Body of `NwsClient.fetch_json` after the request: classify the raw
outcome into an `NwsFetchResult`.  Total: every failure mode is encoded in
the result, never thrown. -/
def classifyResponse (env : Env) (url : String) : FetchOutcome → NwsFetchResult
  | .transportError msg =>
    { url := url, status_code := 0, json_data := none, headers := [],
      etag := none, last_modified := none,
      error := some ("request error: " ++ msg) }
  | .response resp =>
    if resp.status_code == 304 then
      { url := resp.url, status_code := 304, json_data := none, headers := resp.headers,
        etag := get_etag resp.headers,
        last_modified := get_last_modified env.parseDate resp.headers }
    else if resp.content.length == 0 then
      { url := resp.url, status_code := resp.status_code, json_data := none,
        headers := resp.headers, etag := get_etag resp.headers,
        last_modified := get_last_modified env.parseDate resp.headers,
        error := some "empty response body" }
    else
      match env.parseJson resp.content with
      | .error e =>
        { url := resp.url, status_code := resp.status_code, json_data := none,
          headers := resp.headers, etag := get_etag resp.headers,
          last_modified := get_last_modified env.parseDate resp.headers,
          error := some ("json parse error: " ++ e),
          body_preview := some (resp.content.take 300) }
      | .ok data =>
        if data.isObj then
          { url := resp.url, status_code := resp.status_code, json_data := some data,
            headers := resp.headers, etag := get_etag resp.headers,
            last_modified := get_last_modified env.parseDate resp.headers }
        else
          { url := resp.url, status_code := resp.status_code, json_data := none,
            headers := resp.headers, etag := get_etag resp.headers,
            last_modified := get_last_modified env.parseDate resp.headers,
            error := some ("unexpected JSON type: " ++ jtypeName data),
            body_preview := some (resp.content.take 300) }

/-- The request a `fetch_json(url, if_none_match, if_modified_since)` call
puts on the wire. -/
def reqOf (url : String) (inm ims : Option String) : NetReq :=
  .getUrl url (normHeaderVal inm) (normHeaderVal ims)

/-- `NwsClient.fetch_json`. -/
def fetch_json (env : Env) (url : String) (inm ims : Option String) : NwsFetchResult :=
  classifyResponse env url (env.oracle (reqOf url inm ims))

/-- `NwsClient.points`. -/
def points_fetch (env : Env) (lat lon : PFloat) : NwsFetchResult :=
  classifyResponse env (env.pointsUrl lat lon) (env.oracle (.points lat lon))

/- ------------------------------------------------------------------ -/
/- `app/db/nws_repo.py`: rows and store                                -/
/- ------------------------------------------------------------------ -/

/-- Row of `nws_gridpoints`.  The URL/text columns hold `Option String`
(`NULL` or text). -/
structure GridCell where
  id : Nat
  grid_id : String
  grid_x : Int
  grid_y : Int
  forecast_url : Option String
  forecast_hourly_url : Option String
  forecast_griddata_url : Option String
  observation_stations_url : Option String
  time_zone : Option String
  radar_station : Option String
  raw_json : JVal
  updated_at : Int

/-- Row of `nws_point_cache` (`query_geog` kept as the query lat/lon pair). -/
structure PointCacheEntry where
  lat : PFloat
  lon : PFloat
  gridpoint_id : Nat
  distance_m : Option ℚ
  raw_json : JVal
  etag : Option String
  last_modified : Option Int
  fetched_at : Int
  expires_at : Int

/-- Row of `nws_forecasts`. -/
structure ForecastCacheEntry where
  gridpoint_id : Nat
  forecast_type : String
  url : String
  data_json : JVal
  status_code : Nat
  error : Option String
  etag : Option String
  last_modified : Option Int
  fetched_at : Int
  expires_at : Int
  updated_at : Int

/-- Row of `nws_stations`. -/
structure Station where
  id : Nat
  station_identifier : String
  name : Option String
  station_geog : Option (ℚ × ℚ)
  raw_json : JVal
  updated_at : Int

/-- Row of `nws_gridpoint_stations`. -/
structure GridStationLink where
  gridpoint_id : Nat
  station_id : Nat
  priority : Nat

/-- The persistent store. -/
structure Db where
  gridpoints : List GridCell
  point_cache : List PointCacheEntry
  forecasts : List ForecastCacheEntry
  stations : List Station
  links : List GridStationLink
  next_gridpoint_id : Nat
  next_station_id : Nat

/-- One observable network or storage access of a service call. -/
inductive Effect where
  | dbNearestLookup
  | dbGetGridpoint (id : Nat)
  | netFetch (req : NetReq)
  | dbUpsertGridpoint
  | dbInsertPointCache
  | dbUpsertStations
  | dbGetForecast (id : Nat) (ftype : String)
  | dbUpsertForecast (id : Nat) (ftype : String)
deriving DecidableEq

/- ------------------------------------------------------------------ -/
/- Python dict / DB adaptation helpers                                 -/
/- ------------------------------------------------------------------ -/

/-- `d.get(k)` on a decoded JSON value: raises (`AttributeError`) unless the
value is a dict; a JSON `null` decodes to Python `None`, so it is folded
into the missing-key result. -/
def pyGetOpt (v : JVal) (k : String) : Except String (Option JVal) :=
  match v with
  | .jobj fs =>
    match (List.find? (fun p => p.1 == k) fs).map (·.2) with
    | some JVal.jnull => .ok none
    | o => .ok o
  | _ => .error "AttributeError: get on non-dict"

/-- `d.get(k, {}) or {}` (the `props`/`geom` pattern): missing, null or
falsy values become the empty dict. -/
def pyGetDictDefault (v : JVal) (k : String) : Except String JVal := do
  match ← pyGetOpt v k with
  | some x => pure (if jtruthy x then x else .jobj [])
  | none => pure (.jobj [])

/-- Adaptation of an optional JSON value to a nullable `text` column
(a non-string value makes the driver/DB raise). -/
def asTextCol : Option JVal → Except String (Option String)
  | none => .ok none
  | some (.jstr s) => .ok (some s)
  | some _ => .error "DB adaptation error: text column"

/-- `int(x)` on a decoded JSON value (truncation toward zero for
non-integral numbers; numeric strings parse; other values raise). -/
def pyInt : JVal → Except String Int
  | .jnum q => .ok (if 0 ≤ q then ⌊q⌋ else ⌈q⌉)
  | .jbool b => .ok (if b then 1 else 0)
  | .jstr s =>
    match s.trim.toInt? with
    | some n => .ok n
    | none => .error "ValueError: int()"
  | _ => .error "TypeError: int()"

/-- `float(x)` on a decoded JSON value (numeric-string coercion is not
modelled: no claim depends on it). -/
def pyFloat : JVal → Except String ℚ
  | .jnum q => .ok q
  | .jbool b => .ok (if b then 1 else 0)
  | _ => .error "TypeError: float()"

/- ------------------------------------------------------------------ -/
/- `app/db/nws_repo.py`: operations                                    -/
/- ------------------------------------------------------------------ -/

/-- Leftmost row of minimal distance (`ORDER BY distance_m ASC LIMIT 1`,
ties resolved deterministically by insertion order). -/
def pickNearest : List (Nat × ℚ) → Option (Nat × ℚ)
  | [] => none
  | x :: xs =>
    match pickNearest xs with
    | none => some x
    | some y => if x.2 ≤ y.2 then some x else some y

/-- `get_nearest_cached_gridpoint(engine, lat, lon, radius_m)`:
non-expired rows within `radius_m` of the query point, nearest first. -/
def get_nearest_cached_gridpoint (env : Env) (db : Db) (lat lon : PFloat)
    (radius_m : ℚ) : Option (Nat × ℚ) :=
  let rows := db.point_cache.filter
    (fun p => decide (env.now < p.expires_at) && decide (env.dist p.lat p.lon lat lon ≤ radius_m))
  pickNearest (rows.map (fun p => (p.gridpoint_id, env.dist p.lat p.lon lat lon)))

/-- `get_gridpoint(engine, gridpoint_id)`. -/
def get_gridpoint (db : Db) (gridpoint_id : Nat) : Option GridCell :=
  db.gridpoints.find? (fun g => g.id == gridpoint_id)

/-- The parsed and column-adapted fields of a `/points` payload (everything
the Python code computes before the SQL statement runs; any raise happens
here). -/
structure GridFields where
  grid_id : String
  grid_x : Int
  grid_y : Int
  forecast_url : Option String
  forecast_hourly_url : Option String
  forecast_griddata_url : Option String
  observation_stations_url : Option String
  time_zone : Option String
  radar_station : Option String

/-- Field extraction of `upsert_gridpoint_from_points`; raises when the
grid identity is missing. -/
def parseGridFields (points_json : JVal) : Except String GridFields := do
  let props ← pyGetDictDefault points_json "properties"
  let grid_id? ← pyGetOpt props "gridId"
  let grid_x? ← pyGetOpt props "gridX"
  let grid_y? ← pyGetOpt props "gridY"
  if !((grid_id?.elim false jtruthy) && grid_x?.isSome && grid_y?.isSome) then
    throw "NWS /points response missing gridId/gridX/gridY"
  else
    let grid_id ← match grid_id? with
      | some (.jstr s) => pure s
      | _ => throw "DB adaptation error: text column"
    let grid_x ← pyInt (grid_x?.getD .jnull)
    let grid_y ← pyInt (grid_y?.getD .jnull)
    let forecast_url ← asTextCol (← pyGetOpt props "forecast")
    let forecast_hourly_url ← asTextCol (← pyGetOpt props "forecastHourly")
    let forecast_griddata_url ← asTextCol (← pyGetOpt props "forecastGridData")
    let observation_stations_url ← asTextCol (← pyGetOpt props "observationStations")
    let time_zone ← asTextCol (← pyGetOpt props "timeZone")
    let radar_station ← asTextCol (← pyGetOpt props "radarStation")
    pure { grid_id := grid_id, grid_x := grid_x, grid_y := grid_y,
           forecast_url := forecast_url,
           forecast_hourly_url := forecast_hourly_url,
           forecast_griddata_url := forecast_griddata_url,
           observation_stations_url := observation_stations_url,
           time_zone := time_zone,
           radar_station := radar_station }

/-- The SQL of `upsert_gridpoint_from_points`: natural-key upsert on
`(grid_id, grid_x, grid_y)` with `RETURNING id`. -/
def applyGridUpsert (db : Db) (points_json : JVal) (gf : GridFields) (now : Int) :
    Nat × Db :=
  match db.gridpoints.find? (fun g =>
      g.grid_id == gf.grid_id && g.grid_x == gf.grid_x && g.grid_y == gf.grid_y) with
  | some old =>
    let upd : GridCell :=
      { old with
        forecast_url := gf.forecast_url,
        forecast_hourly_url := gf.forecast_hourly_url,
        forecast_griddata_url := gf.forecast_griddata_url,
        observation_stations_url := gf.observation_stations_url,
        time_zone := gf.time_zone,
        radar_station := gf.radar_station,
        raw_json := points_json,
        updated_at := now }
    (old.id,
      { db with gridpoints := db.gridpoints.map (fun g =>
          if g.grid_id == gf.grid_id && g.grid_x == gf.grid_x && g.grid_y == gf.grid_y
          then upd else g) })
  | none =>
    let row : GridCell :=
      { id := db.next_gridpoint_id, grid_id := gf.grid_id, grid_x := gf.grid_x,
        grid_y := gf.grid_y,
        forecast_url := gf.forecast_url,
        forecast_hourly_url := gf.forecast_hourly_url,
        forecast_griddata_url := gf.forecast_griddata_url,
        observation_stations_url := gf.observation_stations_url,
        time_zone := gf.time_zone,
        radar_station := gf.radar_station,
        raw_json := points_json,
        updated_at := now }
    (db.next_gridpoint_id,
      { db with gridpoints := db.gridpoints ++ [row],
                next_gridpoint_id := db.next_gridpoint_id + 1 })

/-- `upsert_gridpoint_from_points(engine, points_json)`. -/
def upsert_gridpoint_from_points (db : Db) (points_json : JVal) (now : Int) :
    Except String (Nat × Db) := do
  let gf ← parseGridFields points_json
  pure (applyGridUpsert db points_json gf now)

/-- `insert_point_cache(engine, ...)`: append-only insert. -/
def insert_point_cache (db : Db) (lat lon : PFloat) (gridpoint_id : Nat)
    (distance_m : Option ℚ) (points_json : JVal) (etag : Option String)
    (last_modified : Option Int) (expires_at : Int) (now : Int) : Db :=
  { db with point_cache := db.point_cache ++
      [{ lat := lat, lon := lon, gridpoint_id := gridpoint_id, distance_m := distance_m,
         raw_json := points_json, etag := etag, last_modified := last_modified,
         fetched_at := now, expires_at := expires_at }] }

/-- Key test of `nws_forecasts` rows. -/
def fcKey (gridpoint_id : Nat) (forecast_type : String) (f : ForecastCacheEntry) : Bool :=
  f.gridpoint_id == gridpoint_id && f.forecast_type == forecast_type

/-- `get_forecast_cache(engine, gridpoint_id, forecast_type)`. -/
def get_forecast_cache (db : Db) (gridpoint_id : Nat) (forecast_type : String) :
    Option ForecastCacheEntry :=
  db.forecasts.find? (fcKey gridpoint_id forecast_type)

/-- The row written by one `upsert_forecast_cache` call
(`fetched_at`/`updated_at` are `now()`). -/
def fcRow (gridpoint_id : Nat) (forecast_type url : String) (data_json : JVal)
    (status_code : Nat) (error etag : Option String) (last_modified : Option Int)
    (expires_at now : Int) : ForecastCacheEntry :=
  { gridpoint_id := gridpoint_id, forecast_type := forecast_type, url := url,
    data_json := data_json, status_code := status_code, error := error,
    etag := etag, last_modified := last_modified,
    fetched_at := now, expires_at := expires_at, updated_at := now }

/-- `upsert_forecast_cache(engine, ...)`: composite-key upsert on
`(gridpoint_id, forecast_type)`; `fetched_at`/`updated_at` are `now()`. -/
def upsert_forecast_cache (db : Db) (gridpoint_id : Nat) (forecast_type : String)
    (url : String) (data_json : JVal) (status_code : Nat) (error : Option String)
    (etag : Option String) (last_modified : Option Int) (expires_at : Int)
    (now : Int) : Db :=
  let row : ForecastCacheEntry :=
    fcRow gridpoint_id forecast_type url data_json status_code error etag last_modified
      expires_at now
  if db.forecasts.any (fcKey gridpoint_id forecast_type) then
    { db with forecasts := db.forecasts.map (fun f =>
        if fcKey gridpoint_id forecast_type f then row else f) }
  else
    { db with forecasts := db.forecasts ++ [row] }

/-- Field extraction for one station feature of
`upsert_stations_for_gridpoint`'s loop body (everything computed before
the SQL runs; `none` means the record is skipped). -/
def parseStationFeature (feature : JVal) :
    Except String (Option (String × Option String × Option (ℚ × ℚ))) := do
  let feat := if jtruthy feature then feature else .jobj []
  let props ← pyGetDictDefault feat "properties"
  let geom ← pyGetDictDefault feat "geometry"
  let ident? ←
    (do
      let a ← pyGetOpt props "stationIdentifier"
      match a with
      | some v => if jtruthy v then pure (some v) else pyGetOpt props "identifier"
      | none => pyGetOpt props "identifier")
  match ident? with
  | none => pure none
  | some identVal =>
    if !(jtruthy identVal) then
      pure none
    else do
      let ident ← match identVal with
        | .jstr s => pure s
        | _ => throw "DB adaptation error: text column"
      let name ← asTextCol (← pyGetOpt props "name")
      let coords? ← pyGetOpt geom "coordinates"
      let geog? ← match coords? with
        | some (.jarr [a, b]) => do
          let lonq ← pyFloat a
          let latq ← pyFloat b
          pure (some (lonq, latq))
        | _ => pure (none : Option (ℚ × ℚ))
      pure (some (ident, name, geog?))

/-- The two SQL statements of the loop body: station upsert by identifier
with `RETURNING id`, then link upsert with the feed position as priority. -/
def applyStationUpsert (db : Db) (gridpoint_id idx : Nat) (feature : JVal)
    (ident : String) (name : Option String) (geog? : Option (ℚ × ℚ)) (now : Int) : Db :=
  let (station_id, db1) : Nat × Db :=
    match db.stations.find? (fun s => s.station_identifier == ident) with
    | some old =>
      (old.id,
        { db with stations := db.stations.map (fun s =>
            if s.station_identifier == ident then
              { old with name := name, station_geog := geog?, raw_json := feature,
                         updated_at := now }
            else s) })
    | none =>
      (db.next_station_id,
        { db with
          stations := db.stations ++
            [{ id := db.next_station_id, station_identifier := ident, name := name,
               station_geog := geog?, raw_json := feature, updated_at := now }],
          next_station_id := db.next_station_id + 1 })
  if db1.links.any (fun l => l.gridpoint_id == gridpoint_id && l.station_id == station_id) then
    { db1 with links := db1.links.map (fun l =>
        if l.gridpoint_id == gridpoint_id && l.station_id == station_id then
          { l with priority := idx }
        else l) }
  else
    { db1 with links := db1.links ++
        [{ gridpoint_id := gridpoint_id, station_id := station_id, priority := idx }] }

/-- One station feature of `upsert_stations_for_gridpoint`'s loop body. -/
def upsertOneStation (db : Db) (gridpoint_id : Nat) (idx : Nat) (feature : JVal)
    (now : Int) : Except String (Bool × Db) := do
  match ← parseStationFeature feature with
  | none => pure (false, db)
  | some (ident, name, geog?) =>
    pure (true, applyStationUpsert db gridpoint_id idx feature ident name geog? now)

/-- The feed-order loop of `upsert_stations_for_gridpoint`. -/
def stationsLoop (gridpoint_id : Nat) (now : Int) :
    List JVal → Nat → Nat → Db → Except String (Nat × Db)
  | [], _, linked, db => .ok (linked, db)
  | f :: rest, idx, linked, db => do
    let (did, db) ← upsertOneStation db gridpoint_id idx f now
    stationsLoop gridpoint_id now rest (idx + 1) (if did then linked + 1 else linked) db

/-- `upsert_stations_for_gridpoint(engine, gridpoint_id, stations_geojson)`.
The Python loop runs in one transaction, so a raise rolls back every write:
the caller keeps its pre-call `Db` on `Except.error`. -/
def upsert_stations_for_gridpoint (db : Db) (gridpoint_id : Nat)
    (stations_geojson : JVal) (now : Int) : Except String (Nat × Db) := do
  let features ← (do
    match ← pyGetOpt stations_geojson "features" with
    | some v => pure (if jtruthy v then v else .jarr [])
    | none => pure (.jarr []))
  match features with
  | .jarr fs => stationsLoop gridpoint_id now fs 0 0 db
  | _ => .ok (0, db)

/- ------------------------------------------------------------------ -/
/- `app/services/nws_weather_service.py`                               -/
/- ------------------------------------------------------------------ -/

/-- Constructor defaults of `NwsWeatherService`. -/
structure SvcConfig where
  cache_radius_m : ℚ := 2500
  points_default_ttl_s : Nat := 86400
  forecast_default_ttl_s : Nat := 600
  stations_default_ttl_s : Nat := 86400

/-- Mutable state threaded through the per-forecast-type loop:
the store, the `debug` trace, the `out["data"]` slots (insertion order)
and the performed effects. -/
structure LoopState where
  db : Db
  debug : List String
  data : List (String × JVal)
  effects : List Effect

/-- The `"ok": True` bundle payload. -/
structure BundleOut where
  query_lat : PFloat
  query_lon : PFloat
  gridpoint_id : Nat
  grid_id : String
  grid_x : Int
  grid_y : Int
  time_zone : Option String
  stations_linked : Nat
  debug : List String
  data : List (String × JVal)

/-- A returned bundle: either the `{"ok": False, "error", "debug"}` shape or
the full `{"ok": True, ...}` shape. -/
inductive BundleResult where
  | failure (error : String) (debug : List String)
  | success (out : BundleOut)

/-- Result of one `get_forecast_bundle` call: the returned value (or the
raised exception), the final store, and the I/O effects performed.
Datetime/float rendering inside trace strings uses `toString` of the model
values in place of `isoformat`/`repr` formatting. -/
abbrev SvcResult := Except String BundleResult × Db × List Effect

def validatedLine : String := "Validated lat/lon within PA bounds"

def receivedLine (env : Env) (lat lon : PFloat) : String :=
  "Received lat/lon: " ++ env.floatRepr lat ++ "," ++ env.floatRepr lon

def cacheHitLine (gid : Nat) (d : ℚ) : String :=
  "Point cache hit: gridpoint_id=" ++ toString gid ++ " (distance=" ++ toString d ++ "m)"

def missPointsLine : String := "Point cache miss -> calling NWS /points"

def pointsFailedLine (status : Nat) : String :=
  "NWS /points failed (" ++ toString status ++ ")"

def pointsOkLine (gid : Nat) (expires_at : Int) : String :=
  "NWS /points OK -> gridpoint_id=" ++ toString gid ++ ", cached until " ++ toString expires_at

def unresolvedMsg : String := "Unable to resolve gridpoint"

def stationsFetchLine : String := "Fetching observation stations list"

def stationsLinkedLine (n : Nat) : String :=
  "Stored/linked " ++ toString n ++ " stations for gridpoint"

def stationsFailedLine (status : Nat) : String :=
  "Stations fetch skipped/failed (" ++ toString status ++ ")"

def noStationsUrlLine : String := "No observationStations URL on gridpoint metadata"

def skipLine (ftype : String) : String :=
  "No URL available for " ++ ftype ++ ", skipping"

def hitLineF (ftype : String) (expires_at : Int) : String :=
  ftype ++ ": cache hit (expires " ++ toString expires_at ++ ")"

def missLine (ftype : String) : String :=
  ftype ++ ": cache miss/expired -> calling NWS"

def extend304Line (ftype : String) (expires_at : Int) : String :=
  ftype ++ ": NWS 304 Not Modified -> extending cache until " ++ toString expires_at

def failLine (ftype : String) (status : Nat) : String :=
  ftype ++ ": NWS failed (" ++ toString status ++ ")"

def errDetailLine (ftype : String) (e : String) : String :=
  ftype ++ ": NWS error detail: " ++ e

def previewLine (ftype : String) (p : String) : String :=
  ftype ++ ": body preview: " ++ p

def staleLine (ftype : String) : String :=
  ftype ++ ": returning STALE cached data due to upstream failure"

def okLine (ftype : String) (expires_at : Int) : String :=
  ftype ++ ": NWS OK -> cached until " ++ toString expires_at

/-- The in-band per-product error marker
`{"error": "fetch failed", "status": res.status_code}`. -/
def errorMarker (status : Nat) : JVal :=
  .jobj [("error", .jstr "fetch failed"), ("status", .jnum (status : ℚ))]

/-- The conditional request issued on revalidation: `If-None-Match` from the
cached ETag, `If-Modified-Since` from the cached Last-Modified reformatted
to the HTTP-date form. -/
def revalReq (env : Env) (url : String) (cached : Option ForecastCacheEntry) : NetReq :=
  reqOf url (cached.bind (·.etag)) ((cached.bind (·.last_modified)).map env.formatHttpDate)

/-- The fetch result of the revalidation request. -/
def revalResult (env : Env) (url : String) (cached : Option ForecastCacheEntry) :
    NwsFetchResult :=
  fetch_json env url (cached.bind (·.etag))
    ((cached.bind (·.last_modified)).map env.formatHttpDate)

/-- Lines 173-202 of the service: the non-304 outcome of a revalidation
fetch (stale-if-error, in-band marker, or 200 refresh). -/
def afterConditional (env : Env) (cfg : SvcConfig) (gp_id : Nat) (ftype url : String)
    (cached : Option ForecastCacheEntry) (res : NwsFetchResult) (expires_at : Int)
    (st : LoopState) : LoopState :=
  if res.status_code != 200 || !(truthyJO res.json_data) then
    let st := { st with debug := st.debug ++ [failLine ftype res.status_code] }
    let st := if truthyS res.error then
        { st with debug := st.debug ++ [errDetailLine ftype (res.error.getD "")] }
      else st
    let st := if truthyS res.body_preview then
        { st with debug := st.debug ++ [previewLine ftype (res.body_preview.getD "")] }
      else st
    match cached with
    | some c =>
      if jtruthy c.data_json then
        { st with debug := st.debug ++ [staleLine ftype],
                  data := st.data ++ [(ftype, c.data_json)] }
      else
        { st with data := st.data ++ [(ftype, errorMarker res.status_code)] }
    | none => { st with data := st.data ++ [(ftype, errorMarker res.status_code)] }
  else
    match res.json_data with
    | some body =>
      { st with
        db := upsert_forecast_cache st.db gp_id ftype url body 200 none
                res.etag res.last_modified expires_at env.now,
        debug := st.debug ++ [okLine ftype expires_at],
        data := st.data ++ [(ftype, body)],
        effects := st.effects ++ [.dbUpsertForecast gp_id ftype] }
    | none => st

/-- Lines 145-202 of the service: the conditional refetch of an expired or
absent entry, including the 304 handler. -/
def revalidate (env : Env) (cfg : SvcConfig) (gp_id : Nat) (ftype url : String)
    (cached : Option ForecastCacheEntry) (st : LoopState) : LoopState :=
  let st := { st with debug := st.debug ++ [missLine ftype],
                      effects := st.effects ++ [.netFetch (revalReq env url cached)] }
  let res := revalResult env url cached
  let expires_at := compute_expires_at env.parseDate res.headers cfg.forecast_default_ttl_s env.now
  match cached with
  | some c =>
    if res.status_code == 304 && jtruthy c.data_json then
      { st with
        db := upsert_forecast_cache st.db gp_id ftype url c.data_json 304 none
                (pyOrS res.etag c.etag) (pyOrD res.last_modified c.last_modified)
                expires_at env.now,
        debug := st.debug ++ [extend304Line ftype expires_at],
        data := st.data ++ [(ftype, c.data_json)],
        effects := st.effects ++ [.dbUpsertForecast gp_id ftype] }
    else afterConditional env cfg gp_id ftype url cached res expires_at st
  | none => afterConditional env cfg gp_id ftype url cached res expires_at st

/-- One iteration of the `for ftype, url in urls.items()` loop
(the forecast revalidation cache `getOrRefresh`). -/
def processForecastType (env : Env) (cfg : SvcConfig) (gp_id : Nat) (ftype : String)
    (url? : Option String) (st : LoopState) : LoopState :=
  if !(truthyS url?) then
    { st with debug := st.debug ++ [skipLine ftype] }
  else
    let url := url?.getD ""
    let st1 := { st with effects := st.effects ++ [.dbGetForecast gp_id ftype] }
    match get_forecast_cache st.db gp_id ftype with
    | some c =>
      if env.now < c.expires_at then
        { st1 with debug := st1.debug ++ [hitLineF ftype c.expires_at],
                   data := st1.data ++ [(ftype, c.data_json)] }
      else revalidate env cfg gp_id ftype url (some c) st1
    | none => revalidate env cfg gp_id ftype url none st1

/-- Lines 110-204: assemble `out`, run the loop over the three forecast
types, return the success bundle. -/
def finishBundle (env : Env) (cfg : SvcConfig) (db : Db) (lat lon : PFloat)
    (gp : GridCell) (debug : List String) (effects : List Effect)
    (stations_linked : Nat) : SvcResult :=
  let st0 : LoopState := { db := db, debug := debug, data := [], effects := effects }
  let st1 := processForecastType env cfg gp.id "forecast" gp.forecast_url st0
  let st2 := processForecastType env cfg gp.id "hourly" gp.forecast_hourly_url st1
  let st3 := processForecastType env cfg gp.id "griddata" gp.forecast_griddata_url st2
  (.ok (.success
    { query_lat := lat, query_lon := lon, gridpoint_id := gp.id, grid_id := gp.grid_id,
      grid_x := gp.grid_x, grid_y := gp.grid_y, time_zone := gp.time_zone,
      stations_linked := stations_linked, debug := st3.debug, data := st3.data }),
   st3.db, st3.effects)

/-- Lines 92-108: the best-effort station refresh, then the bundle. -/
def bundleAfterResolve (env : Env) (cfg : SvcConfig) (db : Db) (lat lon : PFloat)
    (gp : GridCell) (debug : List String) (effects : List Effect) : SvcResult :=
  if truthyS gp.observation_stations_url then
    let surl := gp.observation_stations_url.getD ""
    let debug := debug ++ [stationsFetchLine]
    let res := fetch_json env surl none none
    let effects := effects ++ [.netFetch (reqOf surl none none)]
    match res.json_data with
    | some sj =>
      if res.status_code == 200 && jtruthy sj then
        match upsert_stations_for_gridpoint db gp.id sj env.now with
        | .error e => (.error e, db, effects ++ [.dbUpsertStations])
        | .ok (linked, db2) =>
          finishBundle env cfg db2 lat lon gp
            (debug ++ [stationsLinkedLine linked]) (effects ++ [.dbUpsertStations]) linked
      else
        finishBundle env cfg db lat lon gp
          (debug ++ [stationsFailedLine res.status_code]) effects 0
    | none =>
      finishBundle env cfg db lat lon gp
        (debug ++ [stationsFailedLine res.status_code]) effects 0
  else
    finishBundle env cfg db lat lon gp (debug ++ [noStationsUrlLine]) effects 0

/-- Lines 60-90: the `/points` resolution on a point-cache miss (or a hit
whose gridpoint row cannot be loaded). -/
def bundleMissPath (env : Env) (cfg : SvcConfig) (db : Db) (lat lon : PFloat)
    (debug : List String) (effects : List Effect) : SvcResult :=
  let debug := debug ++ [missPointsLine]
  let res := points_fetch env lat lon
  let effects := effects ++ [.netFetch (.points lat lon)]
  match res.json_data with
  | some pj =>
    if res.status_code == 200 && jtruthy pj then
      let points_expires_at :=
        compute_expires_at env.parseDate res.headers cfg.points_default_ttl_s env.now
      match upsert_gridpoint_from_points db pj env.now with
      | .error e => (.error e, db, effects)
      | .ok (gid, db2) =>
        let db3 := insert_point_cache db2 lat lon gid none pj res.etag res.last_modified
          points_expires_at env.now
        let debug := debug ++ [pointsOkLine gid points_expires_at]
        let effects := effects ++ [.dbUpsertGridpoint, .dbInsertPointCache]
        match get_gridpoint db3 gid with
        | some gp =>
          bundleAfterResolve env cfg db3 lat lon gp debug (effects ++ [.dbGetGridpoint gid])
        | none =>
          (.ok (.failure unresolvedMsg debug), db3, effects ++ [.dbGetGridpoint gid])
    else (.ok (.failure (pointsFailedLine res.status_code) debug), db, effects)
  | none => (.ok (.failure (pointsFailedLine res.status_code) debug), db, effects)

/-- `NwsWeatherService.get_forecast_bundle(lat=lat, lon=lon)`. -/
def get_forecast_bundle (env : Env) (cfg : SvcConfig) (db : Db) (lat lon : PFloat) :
    SvcResult :=
  match validate_lat_lon lat lon with
  | .error e => (.error e, db, [])
  | .ok _ =>
    match assert_in_pa_bounds lat lon with
    | .error e => (.error e, db, [])
    | .ok _ =>
      let debug := [receivedLine env lat lon, validatedLine]
      let effects := [Effect.dbNearestLookup]
      match get_nearest_cached_gridpoint env db lat lon cfg.cache_radius_m with
      | some (gid, d) =>
        let gp? := get_gridpoint db gid
        let effects := effects ++ [.dbGetGridpoint gid]
        let debug := debug ++ [cacheHitLine gid d]
        match gp? with
        | some gp => bundleAfterResolve env cfg db lat lon gp debug effects
        | none => bundleMissPath env cfg db lat lon debug effects
      | none => bundleMissPath env cfg db lat lon debug effects

/- ------------------------------------------------------------------ -/
/- Claim C5: cache-directive evaluator precedence                      -/
/- ------------------------------------------------------------------ -/

/-- The Cache-Directive Evaluator as the spec words it: an absolute expiry
instant chosen by the precedence max-age directive (seconds from now) >
Expires header (absolute instant; malformed or empty treated as absent) >
default TTL (seconds from now). -/
def computeExpirySpecSide (parseDate : String → Option Int) (headers : Headers)
    (default_ttl_seconds : Nat) (now : Int) : Int :=
  match maxAgeSearch (cacheControlValue headers) with
  | some secs => now + (secs : Int)
  | none =>
    let parsedExpires : Option Int :=
      match expiresValue headers with
      | some s => if s = "" then none else parseDate s
      | none => none
    match parsedExpires with
    | some dt => dt
    | none => now + (default_ttl_seconds : Int)

/-- C5: for every response-header map, default TTL and instant,
`compute_expires_at` returns the absolute expiry instant chosen by the
precedence max-age > parseable Expires > default TTL; it is a pure total
function (a Lean function, no failure mode). -/
theorem compute_expires_at_spec (parseDate : String → Option Int) (headers : Headers)
    (default_ttl_seconds : Nat) (now : Int) :
    compute_expires_at parseDate headers default_ttl_seconds now
      = computeExpirySpecSide parseDate headers default_ttl_seconds now := by
  unfold compute_expires_at computeExpirySpecSide
  cases hM : maxAgeSearch (cacheControlValue headers) with
  | some s => simp [hM]
  | none =>
    cases hE : expiresValue headers with
    | none => simp [hM, hE, truthyS]
    | some s =>
      by_cases hs : s = "" <;> simp [hM, hE, truthyS, hs]

/- ------------------------------------------------------------------ -/
/- Claim C8: upstream client fetch contract                            -/
/- ------------------------------------------------------------------ -/

/-- A nonempty string has nonzero length (the `len(content) == 0` test). -/
theorem content_length_beq_zero {s : String} (h : s ≠ "") : (s.length == 0) = false := by
  cases s with
  | mk data =>
    cases data with
    | nil => exact absurd rfl h
    | cons c cs => rfl

/-- C8: the client's fetch always produces an `NwsFetchResult` value (the
classifier below is a total function; nothing is raised): a transport
failure yields status 0 with a classified error and no body; a 304 yields
no body parse but captured validators; an empty body on any other status
yields the error "empty response body"; a non-JSON or non-dict body yields
an error with the first 300 characters of the raw body as a preview;
otherwise the parsed dict body is returned with validators and no error. -/
theorem fetch_json_contract (env : Env) (url : String) :
    (∀ msg,
      (classifyResponse env url (.transportError msg)).status_code = 0 ∧
      (classifyResponse env url (.transportError msg)).error
        = some ("request error: " ++ msg) ∧
      (classifyResponse env url (.transportError msg)).json_data = none) ∧
    (∀ resp : RawResponse, resp.status_code = 304 →
      (classifyResponse env url (.response resp)).json_data = none ∧
      (classifyResponse env url (.response resp)).error = none ∧
      (classifyResponse env url (.response resp)).etag = get_etag resp.headers ∧
      (classifyResponse env url (.response resp)).last_modified
        = get_last_modified env.parseDate resp.headers) ∧
    (∀ resp : RawResponse, resp.status_code ≠ 304 → resp.content = "" →
      (classifyResponse env url (.response resp)).error = some "empty response body" ∧
      (classifyResponse env url (.response resp)).json_data = none) ∧
    (∀ (resp : RawResponse) (e : String), resp.status_code ≠ 304 → resp.content ≠ "" →
      env.parseJson resp.content = .error e →
      (classifyResponse env url (.response resp)).error
        = some ("json parse error: " ++ e) ∧
      (classifyResponse env url (.response resp)).body_preview
        = some (resp.content.take 300) ∧
      (classifyResponse env url (.response resp)).json_data = none) ∧
    (∀ (resp : RawResponse) (d : JVal), resp.status_code ≠ 304 → resp.content ≠ "" →
      env.parseJson resp.content = .ok d → d.isObj = false →
      (classifyResponse env url (.response resp)).error
        = some ("unexpected JSON type: " ++ jtypeName d) ∧
      (classifyResponse env url (.response resp)).body_preview
        = some (resp.content.take 300) ∧
      (classifyResponse env url (.response resp)).json_data = none) ∧
    (∀ (resp : RawResponse) (d : JVal), resp.status_code ≠ 304 → resp.content ≠ "" →
      env.parseJson resp.content = .ok d → d.isObj = true →
      (classifyResponse env url (.response resp)).json_data = some d ∧
      (classifyResponse env url (.response resp)).error = none ∧
      (classifyResponse env url (.response resp)).etag = get_etag resp.headers) := by
  refine ⟨fun msg => ⟨rfl, rfl, rfl⟩, ?_, ?_, ?_, ?_, ?_⟩
  · intro resp h304
    simp [classifyResponse, h304]
  · intro resp h304 hempty
    have hlen : (resp.content.length == 0) = true := by simp [hempty]
    simp [classifyResponse, h304, hlen]
  · intro resp e h304 hne hparse
    have hlen : (resp.content.length == 0) = false := content_length_beq_zero hne
    simp [classifyResponse, h304, hlen, hparse]
  · intro resp d h304 hne hparse hobj
    have hlen : (resp.content.length == 0) = false := content_length_beq_zero hne
    simp [classifyResponse, h304, hlen, hparse, hobj]
  · intro resp d h304 hne hparse hobj
    have hlen : (resp.content.length == 0) = false := content_length_beq_zero hne
    simp [classifyResponse, h304, hlen, hparse, hobj]

/- ------------------------------------------------------------------ -/
/- Concrete instances used by witnesses                                -/
/- ------------------------------------------------------------------ -/

/-- A concrete JSON parser for witnesses. -/
def pjW : String → Except String JVal := fun s =>
  if s = "OBJ" then .ok (.jobj [("a", .jnum 1)])
  else if s = "ARR" then .ok (.jarr [])
  else .error "Expecting value"

/-- A concrete HTTP-date parser for witnesses. -/
def pdW : String → Option Int := fun s => if s = "past" then some 50 else none

/-- A concrete environment for witnesses (oracle overridden per claim). -/
def envBase : Env :=
  { parseJson := pjW, parseDate := pdW,
    formatHttpDate := fun i => "http-date-" ++ toString i,
    floatRepr := fun _ => "q", pointsUrl := fun _ _ => "points-url",
    dist := fun _ _ _ _ => 0,
    oracle := fun _ => .transportError "ConnectError: boom",
    now := 1000 }

/-- The empty store. -/
def dbEmpty : Db :=
  { gridpoints := [], point_cache := [], forecasts := [], stations := [], links := [],
    next_gridpoint_id := 1, next_station_id := 1 }

/-- Witness for C8 at six concrete raw outcomes, one per contract case. -/
theorem fetch_json_contract_witness :
    (classifyResponse envBase "u" (.transportError "boom")).status_code = 0 ∧
    (classifyResponse envBase "u" (.response ⟨"u", 304, "", []⟩)).error = none ∧
    (classifyResponse envBase "u" (.response ⟨"u", 500, "", []⟩)).error
      = some "empty response body" ∧
    (classifyResponse envBase "u" (.response ⟨"u", 200, "nope", []⟩)).body_preview
      = some (String.take "nope" 300) ∧
    (classifyResponse envBase "u" (.response ⟨"u", 200, "ARR", []⟩)).json_data = none ∧
    (classifyResponse envBase "u" (.response ⟨"u", 200, "OBJ", []⟩)).json_data
      = some (.jobj [("a", .jnum 1)]) :=
  ⟨((fetch_json_contract envBase "u").1 "boom").1,
   ((fetch_json_contract envBase "u").2.1 ⟨"u", 304, "", []⟩ rfl).2.1,
   ((fetch_json_contract envBase "u").2.2.1 ⟨"u", 500, "", []⟩ (by decide) rfl).1,
   ((fetch_json_contract envBase "u").2.2.2.1 ⟨"u", 200, "nope", []⟩ "Expecting value"
      (by decide) (by decide) rfl).2.1,
   ((fetch_json_contract envBase "u").2.2.2.2.1 ⟨"u", 200, "ARR", []⟩ (.jarr [])
      (by decide) (by decide) rfl rfl).2.2,
   ((fetch_json_contract envBase "u").2.2.2.2.2 ⟨"u", 200, "OBJ", []⟩ (.jobj [("a", .jnum 1)])
      (by decide) (by decide) rfl rfl).1⟩

/- ------------------------------------------------------------------ -/
/- Claim C9: coordinate validation precedes all I/O                    -/
/- ------------------------------------------------------------------ -/

/-- C9: NaN or out-of-range coordinates are rejected by validation and the
bundle call then returns that rejection with the store untouched and no
network or storage effect performed; a numerically valid coordinate outside
the PA service rectangle is rejected likewise, with an error distinct from
every out-of-range validation error. -/
theorem coordinate_validation_before_io (env : Env) (cfg : SvcConfig) (db : Db)
    (lat lon : PFloat) :
    (∀ e, validate_lat_lon lat lon = .error e →
      get_forecast_bundle env cfg db lat lon = (.error e, db, [])) ∧
    ((lat.selfNe = true ∨ lon.selfNe = true ∨
        (∃ q, lat = .val q ∧ ¬((-90 : ℚ) ≤ q ∧ q ≤ 90)) ∨
        (∃ q, lon = .val q ∧ ¬((-180 : ℚ) ≤ q ∧ q ≤ 180))) →
      ∃ e, validate_lat_lon lat lon = .error e) ∧
    (∀ e, validate_lat_lon lat lon = .ok () → assert_in_pa_bounds lat lon = .error e →
      get_forecast_bundle env cfg db lat lon = (.error e, db, []) ∧
      e = "lat/lon is outside PA bounds (MVP restriction)" ∧
      ∀ la lo e2, validate_lat_lon la lo = .error e2 → e2 ≠ e) ∧
    (∀ qa qb, lat = .val qa → lon = .val qb →
      ¬(PA_MIN_LAT ≤ qa ∧ qa ≤ PA_MAX_LAT ∧ PA_MIN_LON ≤ qb ∧ qb ≤ PA_MAX_LON) →
      ∃ e, assert_in_pa_bounds lat lon = .error e) := by
  refine ⟨?_, ?_, ?_, ?_⟩
  · intro e h
    simp [get_forecast_bundle, h]
  · intro h
    rcases h with h | h | ⟨q, hlat, hq⟩ | ⟨q, hlon, hq⟩
    · exact ⟨"lat/lon must be real numbers", by simp [validate_lat_lon, h]⟩
    · exact ⟨"lat/lon must be real numbers", by simp [validate_lat_lon, h]⟩
    · subst hlat
      cases lon with
      | nan => exact ⟨"lat/lon must be real numbers", by simp [validate_lat_lon, PFloat.selfNe]⟩
      | val r =>
        have hcond : (PFloat.fle (.val (-90)) (.val q) && PFloat.fle (.val q) (.val 90)) = false := by
          simp only [PFloat.fle, Bool.and_eq_false_iff, decide_eq_false_iff_not]
          exact not_and_or.mp hq
        exact ⟨"lat out of range (-90..90)",
          by simp [validate_lat_lon, PFloat.selfNe, hcond]⟩
    · subst hlon
      cases lat with
      | nan => exact ⟨"lat/lon must be real numbers", by simp [validate_lat_lon, PFloat.selfNe]⟩
      | val p =>
        by_cases hp : (-90 : ℚ) ≤ p ∧ p ≤ 90
        · have hcond : (PFloat.fle (.val (-180)) (.val q) && PFloat.fle (.val q) (.val 180)) = false := by
            simp only [PFloat.fle, Bool.and_eq_false_iff, decide_eq_false_iff_not]
            exact not_and_or.mp hq
          have hlatok : (PFloat.fle (.val (-90)) (.val p) && PFloat.fle (.val p) (.val 90)) = true := by
            simp only [PFloat.fle, Bool.and_eq_true, decide_eq_true_eq]
            exact hp
          exact ⟨"lon out of range (-180..180)",
            by simp [validate_lat_lon, PFloat.selfNe, hlatok, hcond]⟩
        · have hcond : (PFloat.fle (.val (-90)) (.val p) && PFloat.fle (.val p) (.val 90)) = false := by
            simp only [PFloat.fle, Bool.and_eq_false_iff, decide_eq_false_iff_not]
            exact not_and_or.mp hp
          exact ⟨"lat out of range (-90..90)",
            by simp [validate_lat_lon, PFloat.selfNe, hcond]⟩
  · intro e hv ha
    refine ⟨by simp [get_forecast_bundle, hv, ha], ?_, ?_⟩
    · unfold assert_in_pa_bounds at ha
      split at ha
      · cases ha
      · injection ha with h
        exact h.symm
    · intro la lo e2 h2
      unfold validate_lat_lon at h2
      split at h2
      · injection h2 with h2
        subst h2
        have he : e = "lat/lon is outside PA bounds (MVP restriction)" := by
          unfold assert_in_pa_bounds at ha
          split at ha
          · cases ha
          · injection ha with h
            exact h.symm
        subst he
        decide
      · split at h2
        · injection h2 with h2
          subst h2
          have he : e = "lat/lon is outside PA bounds (MVP restriction)" := by
            unfold assert_in_pa_bounds at ha
            split at ha
            · cases ha
            · injection ha with h
              exact h.symm
          subst he
          decide
        · split at h2
          · injection h2 with h2
            subst h2
            have he : e = "lat/lon is outside PA bounds (MVP restriction)" := by
              unfold assert_in_pa_bounds at ha
              split at ha
              · cases ha
              · injection ha with h
                exact h.symm
            subst he
            decide
          · cases h2
  · intro qa qb hlat hlon hbox
    subst hlat
    subst hlon
    have hcond : (PFloat.fle (.val PA_MIN_LAT) (.val qa) && PFloat.fle (.val qa) (.val PA_MAX_LAT)
        && PFloat.fle (.val PA_MIN_LON) (.val qb) && PFloat.fle (.val qb) (.val PA_MAX_LON)) = false := by
      simp only [PFloat.fle, Bool.and_eq_false_iff, decide_eq_false_iff_not]
      tauto
    exact ⟨"lat/lon is outside PA bounds (MVP restriction)",
      by simp [assert_in_pa_bounds, hcond]⟩

/-- Witness for C9: a NaN latitude and a valid coordinate outside the PA
rectangle, both rejected before any effect. -/
theorem coordinate_validation_before_io_witness :
    get_forecast_bundle envBase {} dbEmpty .nan (.val 0)
      = (.error "lat/lon must be real numbers", dbEmpty, []) ∧
    get_forecast_bundle envBase {} dbEmpty (.val 40) (.val 0)
      = (.error "lat/lon is outside PA bounds (MVP restriction)", dbEmpty, []) ∧
    "lat out of range (-90..90)" ≠ "lat/lon is outside PA bounds (MVP restriction)" :=
  ⟨(coordinate_validation_before_io envBase {} dbEmpty .nan (.val 0)).1
      "lat/lon must be real numbers" rfl,
   ((coordinate_validation_before_io envBase {} dbEmpty (.val 40) (.val 0)).2.2.1
      "lat/lon is outside PA bounds (MVP restriction)" rfl rfl).1,
   ((coordinate_validation_before_io envBase {} dbEmpty (.val 40) (.val 0)).2.2.1
      "lat/lon is outside PA bounds (MVP restriction)" rfl rfl).2.2
      (.val 100) (.val 0) "lat out of range (-90..90)" rfl⟩

/- ------------------------------------------------------------------ -/
/- Lemmas about the forecast-cache store                               -/
/- ------------------------------------------------------------------ -/

theorem find_replace_self (l : List ForecastCacheEntry) (p : ForecastCacheEntry → Bool)
    (row : ForecastCacheEntry) (hrow : p row = true) (h : l.any p = true) :
    (l.map (fun f => if p f then row else f)).find? p = some row := by
  induction l with
  | nil => cases h
  | cons f fs ih =>
    cases hf : p f with
    | true => simp [List.find?_cons, hf, hrow]
    | false =>
      have h' : fs.any p = true := by simpa [List.any_cons, hf] using h
      simpa [List.find?_cons, hf] using ih h'

theorem find_replace_other (l : List ForecastCacheEntry) (p q : ForecastCacheEntry → Bool)
    (row : ForecastCacheEntry) (hpq : ∀ f, p f = true → q f = false) (hrowq : q row = false) :
    (l.map (fun f => if p f then row else f)).find? q = l.find? q := by
  induction l with
  | nil => rfl
  | cons f fs ih =>
    cases hf : p f with
    | true =>
      have hqf : q f = false := hpq f hf
      simpa [List.find?_cons, hf, hrowq, hqf] using ih
    | false =>
      cases hqf : q f with
      | true => simp [List.find?_cons, hf, hqf]
      | false => simpa [List.find?_cons, hf, hqf] using ih

theorem find_append_single_none {α : Type} (l : List α) (p : α → Bool) (row : α)
    (h : l.find? p = none) (hrow : p row = true) :
    (l ++ [row]).find? p = some row := by
  induction l with
  | nil => simp [List.find?_cons, hrow]
  | cons f fs ih =>
    cases hf : p f with
    | true => simp [List.find?_cons, hf] at h
    | false =>
      have h' : fs.find? p = none := by simpa [List.find?_cons, hf] using h
      simpa [List.find?_cons, hf] using ih h'

theorem find_append_single_other {α : Type} (l : List α) (q : α → Bool) (row : α)
    (hrow : q row = false) :
    (l ++ [row]).find? q = l.find? q := by
  induction l with
  | nil => simp [List.find?_cons, hrow]
  | cons f fs ih =>
    cases hf : q f with
    | true => simp [List.find?_cons, hf]
    | false => simpa [List.find?_cons, hf] using ih

/-- Reading back the upserted key returns exactly the written row. -/
theorem get_forecast_cache_upsert_self (db : Db) (gp : Nat) (ft url : String)
    (data : JVal) (status : Nat) (err etag : Option String) (lm : Option Int)
    (exp now : Int) :
    get_forecast_cache
        (upsert_forecast_cache db gp ft url data status err etag lm exp now) gp ft
      = some (fcRow gp ft url data status err etag lm exp now) := by
  have hrow : fcKey gp ft (fcRow gp ft url data status err etag lm exp now) = true := by
    simp [fcKey, fcRow]
  unfold get_forecast_cache upsert_forecast_cache
  cases h : db.forecasts.any (fcKey gp ft) with
  | true =>
    simpa using find_replace_self db.forecasts (fcKey gp ft) _ hrow h
  | false =>
    have hnone : db.forecasts.find? (fcKey gp ft) = none := by
      rw [List.find?_eq_none]
      intro x hx hpx
      have : db.forecasts.any (fcKey gp ft) = true := List.any_eq_true.mpr ⟨x, hx, hpx⟩
      rw [h] at this
      cases this
    simpa using find_append_single_none db.forecasts (fcKey gp ft) _ hnone hrow

/-- Upserting one key leaves every other key's row unchanged. -/
theorem get_forecast_cache_upsert_other (db : Db) (gp : Nat) (ft url : String)
    (data : JVal) (status : Nat) (err etag : Option String) (lm : Option Int)
    (exp now : Int) (g : Nat) (t : String) (hne : ¬(g = gp ∧ t = ft)) :
    get_forecast_cache
        (upsert_forecast_cache db gp ft url data status err etag lm exp now) g t
      = get_forecast_cache db g t := by
  have hpq : ∀ f, fcKey gp ft f = true → fcKey g t f = false := by
    intro f hf
    simp only [fcKey, Bool.and_eq_true, beq_iff_eq] at hf
    simp only [fcKey, Bool.and_eq_false_iff, beq_eq_false_iff_ne, ne_eq]
    rcases hf with ⟨h1, h2⟩
    by_cases hg : f.gridpoint_id = g
    · right
      intro ht
      exact hne ⟨by rw [← hg, h1], by rw [← ht, h2]⟩
    · left
      exact hg
  have hrowq : fcKey g t (fcRow gp ft url data status err etag lm exp now) = false := by
    apply hpq
    simp [fcKey, fcRow]
  unfold get_forecast_cache upsert_forecast_cache
  cases h : db.forecasts.any (fcKey gp ft) with
  | true => simpa using find_replace_other db.forecasts (fcKey gp ft) (fcKey g t) _ hpq hrowq
  | false => simpa using find_append_single_other db.forecasts (fcKey g t) _ hrowq

theorem upsert_forecast_cache_point_cache (db : Db) (gp : Nat) (ft url : String)
    (data : JVal) (status : Nat) (err etag : Option String) (lm : Option Int)
    (exp now : Int) :
    (upsert_forecast_cache db gp ft url data status err etag lm exp now).point_cache
      = db.point_cache := by
  unfold upsert_forecast_cache
  split <;> rfl

theorem upsert_forecast_cache_gridpoints (db : Db) (gp : Nat) (ft url : String)
    (data : JVal) (status : Nat) (err etag : Option String) (lm : Option Int)
    (exp now : Int) :
    (upsert_forecast_cache db gp ft url data status err etag lm exp now).gridpoints
      = db.gridpoints := by
  unfold upsert_forecast_cache
  split <;> rfl

/- ------------------------------------------------------------------ -/
/- Reduction lemmas for the revalidation loop body                     -/
/- ------------------------------------------------------------------ -/

/-- The expiry the revalidation path computes from the fetch response. -/
def revalExpiry (env : Env) (cfg : SvcConfig) (url : String)
    (cached : Option ForecastCacheEntry) : Int :=
  compute_expires_at env.parseDate (revalResult env url cached).headers
    cfg.forecast_default_ttl_s env.now

theorem processForecastType_skip (env : Env) (cfg : SvcConfig) (gp : Nat) (ftype : String)
    (url? : Option String) (st : LoopState) (hurl : truthyS url? = false) :
    processForecastType env cfg gp ftype url? st
      = { st with debug := st.debug ++ [skipLine ftype] } := by
  unfold processForecastType
  simp [hurl]

theorem processForecastType_hit (env : Env) (cfg : SvcConfig) (gp : Nat) (ftype : String)
    (url : String) (st : LoopState) (c : ForecastCacheEntry)
    (hurl : url ≠ "") (hc : get_forecast_cache st.db gp ftype = some c)
    (hfresh : env.now < c.expires_at) :
    processForecastType env cfg gp ftype (some url) st
      = { st with debug := st.debug ++ [hitLineF ftype c.expires_at],
                  data := st.data ++ [(ftype, c.data_json)],
                  effects := st.effects ++ [.dbGetForecast gp ftype] } := by
  have hu : truthyS (some url) = true := by simp [truthyS, hurl]
  unfold processForecastType
  simp [hu, hc, hfresh]

theorem processForecastType_expired (env : Env) (cfg : SvcConfig) (gp : Nat) (ftype : String)
    (url : String) (st : LoopState) (c : ForecastCacheEntry)
    (hurl : url ≠ "") (hc : get_forecast_cache st.db gp ftype = some c)
    (hexp : ¬(env.now < c.expires_at)) :
    processForecastType env cfg gp ftype (some url) st
      = revalidate env cfg gp ftype url (some c)
          { st with effects := st.effects ++ [.dbGetForecast gp ftype] } := by
  have hu : truthyS (some url) = true := by simp [truthyS, hurl]
  unfold processForecastType
  simp [hu, hc, hexp]

theorem processForecastType_absent (env : Env) (cfg : SvcConfig) (gp : Nat) (ftype : String)
    (url : String) (st : LoopState)
    (hurl : url ≠ "") (hc : get_forecast_cache st.db gp ftype = none) :
    processForecastType env cfg gp ftype (some url) st
      = revalidate env cfg gp ftype url none
          { st with effects := st.effects ++ [.dbGetForecast gp ftype] } := by
  have hu : truthyS (some url) = true := by simp [truthyS, hurl]
  unfold processForecastType
  simp [hu, hc]

theorem revalidate_304 (env : Env) (cfg : SvcConfig) (gp : Nat) (ftype url : String)
    (c : ForecastCacheEntry) (st : LoopState)
    (h304 : (revalResult env url (some c)).status_code = 304)
    (hdata : jtruthy c.data_json = true) :
    revalidate env cfg gp ftype url (some c) st
      = { db := upsert_forecast_cache st.db gp ftype url c.data_json 304 none
                  (pyOrS (revalResult env url (some c)).etag c.etag)
                  (pyOrD (revalResult env url (some c)).last_modified c.last_modified)
                  (revalExpiry env cfg url (some c)) env.now,
          debug := st.debug ++ [missLine ftype,
                     extend304Line ftype (revalExpiry env cfg url (some c))],
          data := st.data ++ [(ftype, c.data_json)],
          effects := st.effects ++ [.netFetch (revalReq env url (some c)),
                       .dbUpsertForecast gp ftype] } := by
  unfold revalidate
  simp [h304, hdata, revalExpiry]

theorem revalidate_some_not304 (env : Env) (cfg : SvcConfig) (gp : Nat) (ftype url : String)
    (c : ForecastCacheEntry) (st : LoopState)
    (hcond : ((revalResult env url (some c)).status_code == 304 && jtruthy c.data_json) = false) :
    revalidate env cfg gp ftype url (some c) st
      = afterConditional env cfg gp ftype url (some c) (revalResult env url (some c))
          (revalExpiry env cfg url (some c))
          { st with debug := st.debug ++ [missLine ftype],
                    effects := st.effects ++ [.netFetch (revalReq env url (some c))] } := by
  unfold revalidate
  simp [hcond, revalExpiry]

theorem revalidate_none (env : Env) (cfg : SvcConfig) (gp : Nat) (ftype url : String)
    (st : LoopState) :
    revalidate env cfg gp ftype url none st
      = afterConditional env cfg gp ftype url none (revalResult env url none)
          (revalExpiry env cfg url none)
          { st with debug := st.debug ++ [missLine ftype],
                    effects := st.effects ++ [.netFetch (revalReq env url none)] } := by
  unfold revalidate
  simp [revalExpiry]

theorem afterConditional_fail_cached (env : Env) (cfg : SvcConfig) (gp : Nat)
    (ftype url : String) (c : ForecastCacheEntry) (res : NwsFetchResult)
    (exp : Int) (st : LoopState)
    (hfcond : (res.status_code != 200 || !(truthyJO res.json_data)) = true)
    (hdata : jtruthy c.data_json = true) :
    (afterConditional env cfg gp ftype url (some c) res exp st).data
      = st.data ++ [(ftype, c.data_json)] ∧
    (afterConditional env cfg gp ftype url (some c) res exp st).db = st.db ∧
    (afterConditional env cfg gp ftype url (some c) res exp st).effects = st.effects ∧
    ∃ mid, (afterConditional env cfg gp ftype url (some c) res exp st).debug
      = st.debug ++ [failLine ftype res.status_code] ++ mid ++ [staleLine ftype] := by
  unfold afterConditional
  rw [if_pos hfcond]
  cases he : truthyS res.error with
  | true =>
    cases hp : truthyS res.body_preview with
    | true =>
      refine ⟨by simp [he, hp, hdata], by simp [he, hp, hdata], by simp [he, hp, hdata],
        [errDetailLine ftype (res.error.getD ""), previewLine ftype (res.body_preview.getD "")],
        by simp [he, hp, hdata]⟩
    | false =>
      refine ⟨by simp [he, hp, hdata], by simp [he, hp, hdata], by simp [he, hp, hdata],
        [errDetailLine ftype (res.error.getD "")], by simp [he, hp, hdata]⟩
  | false =>
    cases hp : truthyS res.body_preview with
    | true =>
      refine ⟨by simp [he, hp, hdata], by simp [he, hp, hdata], by simp [he, hp, hdata],
        [previewLine ftype (res.body_preview.getD "")], by simp [he, hp, hdata]⟩
    | false =>
      refine ⟨by simp [he, hp, hdata], by simp [he, hp, hdata], by simp [he, hp, hdata],
        [], by simp [he, hp, hdata]⟩

theorem afterConditional_fail_marker (env : Env) (cfg : SvcConfig) (gp : Nat)
    (ftype url : String) (cached : Option ForecastCacheEntry) (res : NwsFetchResult)
    (exp : Int) (st : LoopState)
    (hfcond : (res.status_code != 200 || !(truthyJO res.json_data)) = true)
    (hnodata : (match cached with | some c => jtruthy c.data_json | none => false) = false) :
    (afterConditional env cfg gp ftype url cached res exp st).data
      = st.data ++ [(ftype, errorMarker res.status_code)] ∧
    (afterConditional env cfg gp ftype url cached res exp st).db = st.db ∧
    (afterConditional env cfg gp ftype url cached res exp st).effects = st.effects := by
  unfold afterConditional
  rw [if_pos hfcond]
  cases cached with
  | some c =>
    have hd : jtruthy c.data_json = false := hnodata
    cases he : truthyS res.error <;> cases hp : truthyS res.body_preview <;>
      exact ⟨by simp [he, hp, hd], by simp [he, hp, hd], by simp [he, hp, hd]⟩
  | none =>
    cases he : truthyS res.error <;> cases hp : truthyS res.body_preview <;>
      exact ⟨by simp [he, hp], by simp [he, hp], by simp [he, hp]⟩

theorem afterConditional_ok (env : Env) (cfg : SvcConfig) (gp : Nat)
    (ftype url : String) (cached : Option ForecastCacheEntry) (res : NwsFetchResult)
    (exp : Int) (st : LoopState) (body : JVal)
    (hst : res.status_code = 200) (hjson : res.json_data = some body)
    (htr : jtruthy body = true) :
    afterConditional env cfg gp ftype url cached res exp st
      = { db := upsert_forecast_cache st.db gp ftype url body 200 none
                  res.etag res.last_modified exp env.now,
          debug := st.debug ++ [okLine ftype exp],
          data := st.data ++ [(ftype, body)],
          effects := st.effects ++ [.dbUpsertForecast gp ftype] } := by
  have hfcond : (res.status_code != 200 || !(truthyJO res.json_data)) = false := by
    simp [hst, hjson, truthyJO, htr]
  unfold afterConditional
  rw [if_neg (by simp [hfcond])]
  simp [hjson]

/-- Failure of the conditional fetch never writes the store, whatever the
cached entry holds. -/
theorem afterConditional_fail_db (env : Env) (cfg : SvcConfig) (gp : Nat)
    (ftype url : String) (cached : Option ForecastCacheEntry) (res : NwsFetchResult)
    (exp : Int) (st : LoopState)
    (hfcond : (res.status_code != 200 || !(truthyJO res.json_data)) = true) :
    (afterConditional env cfg gp ftype url cached res exp st).db = st.db ∧
    (afterConditional env cfg gp ftype url cached res exp st).effects = st.effects := by
  unfold afterConditional
  rw [if_pos hfcond]
  cases cached with
  | some c =>
    cases hd : jtruthy c.data_json <;> cases he : truthyS res.error <;>
      cases hp : truthyS res.body_preview <;>
      exact ⟨by simp [hd, he, hp], by simp [hd, he, hp]⟩
  | none =>
    cases he : truthyS res.error <;> cases hp : truthyS res.body_preview <;>
      exact ⟨by simp [he, hp], by simp [he, hp]⟩

/- ------------------------------------------------------------------ -/
/- Claim C1: stale-if-error serves the cached payload                  -/
/- ------------------------------------------------------------------ -/

/-- C1: for a cached entry with truthy payload whose expiry has passed,
when the revalidation fetch fails (status neither 200 nor 304, or a
missing/non-truthy JSON body), the product slot receives exactly the
previously cached payload and the trace contains the stale-serve entry. -/
theorem stale_if_error_serves_cached (env : Env) (cfg : SvcConfig) (gp : Nat)
    (ftype url : String) (c : ForecastCacheEntry) (st : LoopState)
    (hurl : url ≠ "")
    (hc : get_forecast_cache st.db gp ftype = some c)
    (hdata : jtruthy c.data_json = true)
    (hexp : ¬(env.now < c.expires_at))
    (h304 : (revalResult env url (some c)).status_code ≠ 304)
    (hfail : (revalResult env url (some c)).status_code ≠ 200 ∨
             truthyJO (revalResult env url (some c)).json_data = false) :
    (processForecastType env cfg gp ftype (some url) st).data
      = st.data ++ [(ftype, c.data_json)] ∧
    staleLine ftype ∈ (processForecastType env cfg gp ftype (some url) st).debug := by
  rw [processForecastType_expired env cfg gp ftype url st c hurl hc hexp]
  have hcond : ((revalResult env url (some c)).status_code == 304
      && jtruthy c.data_json) = false := by
    simp [h304]
  rw [revalidate_some_not304 env cfg gp ftype url c _ hcond]
  have hfcond : ((revalResult env url (some c)).status_code != 200
      || !(truthyJO (revalResult env url (some c)).json_data)) = true := by
    rcases hfail with h | h
    · simp [bne_iff_ne, h]
    · simp [h]
  obtain ⟨hdata', _, _, mid, hdebug⟩ :=
    afterConditional_fail_cached env cfg gp ftype url c (revalResult env url (some c))
      (revalExpiry env cfg url (some c)) _ hfcond hdata
  constructor
  · rw [hdata']
  · rw [hdebug]
    simp

/-- Cached entry used by witnesses: truthy payload, expired at `now = 1000`. -/
def fcW : ForecastCacheEntry :=
  { gridpoint_id := 7, forecast_type := "forecast", url := "u",
    data_json := .jobj [("periods", .jnum 3)], status_code := 200, error := none,
    etag := some "E1", last_modified := none, fetched_at := 10, expires_at := 100,
    updated_at := 10 }

/-- Store holding just the cached forecast entry. -/
def dbC1 : Db := { dbEmpty with forecasts := [fcW] }

/-- Environment whose upstream always answers 500 with an empty body. -/
def envC1 : Env := { envBase with oracle := fun _ => .response ⟨"u", 500, "", []⟩ }

/-- Loop state at the start of the forecast iteration. -/
def stC1 : LoopState := { db := dbC1, debug := [], data := [], effects := [] }

/-- Witness for C1: concrete 500 revalidation serves the stale payload. -/
theorem stale_if_error_serves_cached_witness :
    (processForecastType envC1 {} 7 "forecast" (some "u") stC1).data
      = [("forecast", .jobj [("periods", .jnum 3)])] ∧
    staleLine "forecast" ∈ (processForecastType envC1 {} 7 "forecast" (some "u") stC1).debug := by
  have h := stale_if_error_serves_cached envC1 {} 7 "forecast" "u" fcW stC1
    (by decide) rfl rfl (by decide) (by decide) (Or.inl (by decide))
  refine ⟨?_, h.2⟩
  rw [h.1]
  rfl

/- ------------------------------------------------------------------ -/
/- Claim C2: persistence policy across fetch attempts (corrected)      -/
/- ------------------------------------------------------------------ -/

/-- C2 counterexample: with a cached expired entry and a failed (500)
revalidation fetch, the service does not upsert the entry at all: the
stored entry afterwards still has `error = none` and `status_code = 200`
even though the observed status was 500, refuting "after a failed fetch
attempt the stored entry has its error field set and the observed status
code recorded". -/
theorem failed_fetch_not_persisted_cex :
    (revalResult envC1 "u" (some fcW)).status_code = 500 ∧
    (processForecastType envC1 {} 7 "forecast" (some "u") stC1).db = stC1.db ∧
    get_forecast_cache (processForecastType envC1 {} 7 "forecast" (some "u") stC1).db
        7 "forecast" = some fcW ∧
    fcW.error = none ∧ fcW.status_code = 200 :=
  ⟨rfl, rfl, rfl, rfl, rfl⟩

/-- C2 (amended): the entry is upserted in place on a successful 200 fetch
and on a 304 revalidation with a cached payload; a failed fetch attempt
performs no store write at all, so the previous payload (and the previous
status/error fields) are retained untouched and the failure is recorded
only in the trace. -/
theorem forecast_cache_write_policy (env : Env) (cfg : SvcConfig) (gp : Nat)
    (ftype url : String) (st : LoopState) (hurl : url ≠ "") :
    (∀ c, get_forecast_cache st.db gp ftype = some c → ¬(env.now < c.expires_at) →
      ((revalResult env url (some c)).status_code == 304 && jtruthy c.data_json) = false →
      ((revalResult env url (some c)).status_code ≠ 200 ∨
        truthyJO (revalResult env url (some c)).json_data = false) →
      (processForecastType env cfg gp ftype (some url) st).db = st.db) ∧
    (get_forecast_cache st.db gp ftype = none →
      ((revalResult env url none).status_code ≠ 200 ∨
        truthyJO (revalResult env url none).json_data = false) →
      (processForecastType env cfg gp ftype (some url) st).db = st.db) ∧
    (∀ c, get_forecast_cache st.db gp ftype = some c → ¬(env.now < c.expires_at) →
      (revalResult env url (some c)).status_code = 304 → jtruthy c.data_json = true →
      get_forecast_cache (processForecastType env cfg gp ftype (some url) st).db gp ftype
        = some (fcRow gp ftype url c.data_json 304 none
            (pyOrS (revalResult env url (some c)).etag c.etag)
            (pyOrD (revalResult env url (some c)).last_modified c.last_modified)
            (revalExpiry env cfg url (some c)) env.now)) ∧
    (∀ c body, get_forecast_cache st.db gp ftype = some c → ¬(env.now < c.expires_at) →
      ((revalResult env url (some c)).status_code == 304 && jtruthy c.data_json) = false →
      (revalResult env url (some c)).status_code = 200 →
      (revalResult env url (some c)).json_data = some body → jtruthy body = true →
      get_forecast_cache (processForecastType env cfg gp ftype (some url) st).db gp ftype
        = some (fcRow gp ftype url body 200 none (revalResult env url (some c)).etag
            (revalResult env url (some c)).last_modified
            (revalExpiry env cfg url (some c)) env.now)) ∧
    (∀ body, get_forecast_cache st.db gp ftype = none →
      (revalResult env url none).status_code = 200 →
      (revalResult env url none).json_data = some body → jtruthy body = true →
      get_forecast_cache (processForecastType env cfg gp ftype (some url) st).db gp ftype
        = some (fcRow gp ftype url body 200 none (revalResult env url none).etag
            (revalResult env url none).last_modified
            (revalExpiry env cfg url none) env.now)) := by
  refine ⟨?_, ?_, ?_, ?_, ?_⟩
  · intro c hc hexp hcond hfail
    rw [processForecastType_expired env cfg gp ftype url st c hurl hc hexp,
        revalidate_some_not304 env cfg gp ftype url c _ hcond]
    have hfcond : ((revalResult env url (some c)).status_code != 200
        || !(truthyJO (revalResult env url (some c)).json_data)) = true := by
      rcases hfail with h | h
      · simp [bne_iff_ne, h]
      · simp [h]
    exact (afterConditional_fail_db env cfg gp ftype url (some c) _ _ _ hfcond).1
  · intro hc hfail
    rw [processForecastType_absent env cfg gp ftype url st hurl hc,
        revalidate_none env cfg gp ftype url _]
    have hfcond : ((revalResult env url none).status_code != 200
        || !(truthyJO (revalResult env url none).json_data)) = true := by
      rcases hfail with h | h
      · simp [bne_iff_ne, h]
      · simp [h]
    exact (afterConditional_fail_db env cfg gp ftype url none _ _ _ hfcond).1
  · intro c hc hexp h304 hdata
    rw [processForecastType_expired env cfg gp ftype url st c hurl hc hexp,
        revalidate_304 env cfg gp ftype url c _ h304 hdata]
    exact get_forecast_cache_upsert_self _ gp ftype url c.data_json 304 none _ _ _ _
  · intro c body hc hexp hcond h200 hjson htr
    rw [processForecastType_expired env cfg gp ftype url st c hurl hc hexp,
        revalidate_some_not304 env cfg gp ftype url c _ hcond,
        afterConditional_ok env cfg gp ftype url (some c) _ _ _ body h200 hjson htr]
    exact get_forecast_cache_upsert_self _ gp ftype url body 200 none _ _ _ _
  · intro body hc h200 hjson htr
    rw [processForecastType_absent env cfg gp ftype url st hurl hc,
        revalidate_none env cfg gp ftype url _,
        afterConditional_ok env cfg gp ftype url none _ _ _ body h200 hjson htr]
    exact get_forecast_cache_upsert_self _ gp ftype url body 200 none _ _ _ _

/-- Witness for the amended C2 at the concrete 500-failure input. -/
theorem forecast_cache_write_policy_witness :
    (processForecastType envC1 {} 7 "forecast" (some "u") stC1).db = stC1.db :=
  (forecast_cache_write_policy envC1 {} 7 "forecast" "u" stC1 (by decide)).1 fcW rfl
    (by decide) (by decide) (Or.inl (by decide))

/- ------------------------------------------------------------------ -/
/- Claim C3: payload-preservation invariant                            -/
/- ------------------------------------------------------------------ -/

/-- C3: one step of the forecast revalidation cache (any key, any URL,
any upstream behaviour) keeps every non-empty stored payload non-empty:
a stored payload either stays exactly as it was (cache hit, 304, skip, or
any failed fetch) or — only for the processed key — is replaced by the
body of a successful 200 response. -/
theorem forecast_payload_invariant (env : Env) (cfg : SvcConfig) (gp : Nat) (ftype : String)
    (url? : Option String) (st : LoopState) (g : Nat) (t : String) (c : ForecastCacheEntry)
    (hc : get_forecast_cache st.db g t = some c)
    (hne : jtruthy c.data_json = true) :
    ∃ c', get_forecast_cache (processForecastType env cfg gp ftype url? st).db g t = some c' ∧
      jtruthy c'.data_json = true ∧
      (c'.data_json = c.data_json ∨
        (g = gp ∧ t = ftype ∧ ∃ u, url? = some u ∧
          (revalResult env u (get_forecast_cache st.db gp ftype)).status_code = 200 ∧
          (revalResult env u (get_forecast_cache st.db gp ftype)).json_data
            = some c'.data_json)) := by
  cases hu : truthyS url? with
  | false =>
    rw [processForecastType_skip env cfg gp ftype url? st hu]
    exact ⟨c, hc, hne, Or.inl rfl⟩
  | true =>
    obtain ⟨u, rfl⟩ : ∃ u, url? = some u := by
      cases url? with
      | none => simp [truthyS] at hu
      | some u => exact ⟨u, rfl⟩
    have hurl : u ≠ "" := by simpa [truthyS] using hu
    cases hgt : get_forecast_cache st.db gp ftype with
    | none =>
      have hkey : ¬(g = gp ∧ t = ftype) := by
        rintro ⟨rfl, rfl⟩
        rw [hc] at hgt
        cases hgt
      rw [processForecastType_absent env cfg gp ftype u st hurl hgt,
          revalidate_none env cfg gp ftype u _]
      rcases Bool.eq_false_or_eq_true
          ((revalResult env u none).status_code != 200
            || !(truthyJO (revalResult env u none).json_data)) with htrue | hfalse
      · rw [(afterConditional_fail_db env cfg gp ftype u none _ _ _ htrue).1]
        exact ⟨c, hc, hne, Or.inl rfl⟩
      have hparts := Bool.or_eq_false_iff.mp hfalse
      have h200 : (revalResult env u none).status_code = 200 :=
        bne_eq_false_iff_eq.mp hparts.1
      have htris : truthyJO (revalResult env u none).json_data = true := by
        have := hparts.2
        simpa using this
      cases hjd : (revalResult env u none).json_data with
      | none => rw [hjd] at htris; simp [truthyJO] at htris
      | some body =>
        have htrb : jtruthy body = true := by
          rw [hjd] at htris
          simpa [truthyJO] using htris
        rw [afterConditional_ok env cfg gp ftype u none _ _ _ body h200 hjd htrb,
            get_forecast_cache_upsert_other _ gp ftype u body 200 none _ _ _ _ g t hkey]
        exact ⟨c, hc, hne, Or.inl rfl⟩
    | some c0 =>
      by_cases hfresh : env.now < c0.expires_at
      · rw [processForecastType_hit env cfg gp ftype u st c0 hurl hgt hfresh]
        exact ⟨c, hc, hne, Or.inl rfl⟩
      · rw [processForecastType_expired env cfg gp ftype u st c0 hurl hgt hfresh]
        rcases Bool.eq_false_or_eq_true
            ((revalResult env u (some c0)).status_code == 304 && jtruthy c0.data_json)
          with hcondT | hcond
        · have h1 := hcondT
          simp only [Bool.and_eq_true] at h1
          have h304 : (revalResult env u (some c0)).status_code = 304 := beq_iff_eq.mp h1.1
          have hd0 : jtruthy c0.data_json = true := h1.2
          rw [revalidate_304 env cfg gp ftype u c0 _ h304 hd0]
          by_cases hkey : g = gp ∧ t = ftype
          · rcases hkey with ⟨rfl, rfl⟩
            have hceq : c0 = c := by
              rw [hgt] at hc
              injection hc
            rw [get_forecast_cache_upsert_self]
            refine ⟨_, rfl, by simpa [fcRow] using hd0, Or.inl ?_⟩
            simp only [fcRow]
            rw [hceq]
          · rw [get_forecast_cache_upsert_other _ gp ftype u c0.data_json 304 none _ _ _ _ g t hkey]
            exact ⟨c, hc, hne, Or.inl rfl⟩
        rw [revalidate_some_not304 env cfg gp ftype u c0 _ hcond]
        rcases Bool.eq_false_or_eq_true
            ((revalResult env u (some c0)).status_code != 200
              || !(truthyJO (revalResult env u (some c0)).json_data)) with htrue | hfalse
        · rw [(afterConditional_fail_db env cfg gp ftype u (some c0) _ _ _ htrue).1]
          exact ⟨c, hc, hne, Or.inl rfl⟩
        have hparts := Bool.or_eq_false_iff.mp hfalse
        have h200 : (revalResult env u (some c0)).status_code = 200 :=
          bne_eq_false_iff_eq.mp hparts.1
        have htris : truthyJO (revalResult env u (some c0)).json_data = true := by
          have := hparts.2
          simpa using this
        cases hjd : (revalResult env u (some c0)).json_data with
        | none => rw [hjd] at htris; simp [truthyJO] at htris
        | some body =>
          have htrb : jtruthy body = true := by
            rw [hjd] at htris
            simpa [truthyJO] using htris
          rw [afterConditional_ok env cfg gp ftype u (some c0) _ _ _ body h200 hjd htrb]
          by_cases hkey : g = gp ∧ t = ftype
          · rcases hkey with ⟨rfl, rfl⟩
            rw [get_forecast_cache_upsert_self]
            refine ⟨_, rfl, by simpa [fcRow] using htrb,
              Or.inr ⟨rfl, rfl, u, rfl, ?_, ?_⟩⟩
            · exact h200
            · simpa [fcRow] using hjd
          · rw [get_forecast_cache_upsert_other _ gp ftype u body 200 none _ _ _ _ g t hkey]
            exact ⟨c, hc, hne, Or.inl rfl⟩

/-- Environment answering 304 with no caching headers. -/
def envC3 : Env := { envBase with oracle := fun _ => .response ⟨"u", 304, "", []⟩ }

/-- Witness for C3: the 304 revalidation keeps the stored payload. -/
theorem forecast_payload_invariant_witness :
    ∃ c', get_forecast_cache (processForecastType envC3 {} 7 "forecast" (some "u") stC1).db
        7 "forecast" = some c' ∧
      jtruthy c'.data_json = true ∧
      (c'.data_json = fcW.data_json ∨
        (7 = 7 ∧ "forecast" = "forecast" ∧ ∃ u, (some "u" : Option String) = some u ∧
          (revalResult envC3 u (get_forecast_cache stC1.db 7 "forecast")).status_code = 200 ∧
          (revalResult envC3 u (get_forecast_cache stC1.db 7 "forecast")).json_data
            = some c'.data_json)) :=
  forecast_payload_invariant envC3 {} 7 "forecast" (some "u") stC1 7 "forecast" fcW rfl rfl

/- ------------------------------------------------------------------ -/
/- Claim C4: 304 revalidation (corrected)                              -/
/- ------------------------------------------------------------------ -/

/-- The absolute instant carried by a non-empty, parseable Expires header. -/
def expiresHeaderInstant (parseDate : String → Option Int) (headers : Headers) : Option Int :=
  match expiresValue headers with
  | some s => if s = "" then none else parseDate s
  | none => none

theorem compute_expires_at_cases (parseDate : String → Option Int) (headers : Headers)
    (ttl : Nat) (now : Int) :
    compute_expires_at parseDate headers ttl now
      = match maxAgeSearch (cacheControlValue headers) with
        | some secs => now + (secs : Int)
        | none =>
          match expiresHeaderInstant parseDate headers with
          | some dt => dt
          | none => now + (ttl : Int) := by
  unfold compute_expires_at expiresHeaderInstant
  cases hM : maxAgeSearch (cacheControlValue headers) with
  | some s => simp [hM]
  | none =>
    cases hE : expiresValue headers with
    | none => simp [hM, hE, truthyS]
    | some s => by_cases hs : s = "" <;> simp [hM, hE, truthyS, hs]

/-- Environment answering 304 with an `Expires` header that parses (via
`pdW`) to the past instant 50. -/
def envC4 : Env :=
  { envBase with oracle := fun _ => .response ⟨"u", 304, "", [("expires", "past")]⟩ }

/-- C4 counterexample: a cached entry with past expiry 100 (at `now = 1000`)
revalidated by a 304 whose `Expires` header parses to instant 50 is
persisted with expiry 50 — the stored expiry does not strictly increase. -/
theorem expiry_may_decrease_on_304_cex :
    (get_forecast_cache stC1.db 7 "forecast").map (fun c => c.expires_at) = some 100 ∧
    (revalResult envC4 "u" (some fcW)).status_code = 304 ∧
    envC4.now = 1000 ∧
    (get_forecast_cache (processForecastType envC4 {} 7 "forecast" (some "u") stC1).db
        7 "forecast").map (fun c => c.expires_at) = some 50 ∧
    ¬((100 : Int) < 50) ∧
    (get_forecast_cache (processForecastType envC4 {} 7 "forecast" (some "u") stC1).db
        7 "forecast").map (fun c => c.data_json) = some fcW.data_json :=
  ⟨rfl, rfl, rfl, rfl, by decide, rfl⟩

/-- C4 (amended): for a cached entry with truthy payload and past expiry,
a 304 revalidation persists the entry with the payload unchanged, status
304, validators falling back to the cached ones when the 304 response
omits them, and expiry recomputed from the 304 response's headers; that
stored expiry strictly increases whenever it derives from a max-age
directive or the default TTL — but an Expires-header-derived instant may
fail to increase (see the counterexample). -/
theorem reval_304_payload_kept_expiry_recomputed (env : Env) (cfg : SvcConfig) (gp : Nat)
    (ftype url : String) (c : ForecastCacheEntry) (st : LoopState)
    (hurl : url ≠ "")
    (hc : get_forecast_cache st.db gp ftype = some c)
    (hpast : c.expires_at < env.now)
    (h304 : (revalResult env url (some c)).status_code = 304)
    (hdata : jtruthy c.data_json = true) :
    ∃ c', get_forecast_cache (processForecastType env cfg gp ftype (some url) st).db gp ftype
        = some c' ∧
      c'.data_json = c.data_json ∧
      c'.status_code = 304 ∧
      c'.expires_at = revalExpiry env cfg url (some c) ∧
      (truthyS (revalResult env url (some c)).etag = false → c'.etag = c.etag) ∧
      ((revalResult env url (some c)).last_modified = none →
        c'.last_modified = c.last_modified) ∧
      (((maxAgeSearch (cacheControlValue (revalResult env url (some c)).headers)).isSome = true
          ∨ expiresHeaderInstant env.parseDate (revalResult env url (some c)).headers = none) →
        c.expires_at < c'.expires_at) := by
  rw [processForecastType_expired env cfg gp ftype url st c hurl hc (lt_asymm hpast),
      revalidate_304 env cfg gp ftype url c _ h304 hdata]
  rw [get_forecast_cache_upsert_self]
  refine ⟨_, rfl, rfl, rfl, rfl, ?_, ?_, ?_⟩
  · intro het
    simp only [fcRow, pyOrS, het, if_neg]
    simp
  · intro hlm
    simp only [fcRow, pyOrD, hlm]
  · intro hsrc
    show c.expires_at < revalExpiry env cfg url (some c)
    rw [revalExpiry, compute_expires_at_cases]
    cases hM : maxAgeSearch (cacheControlValue (revalResult env url (some c)).headers) with
    | some s =>
      have : c.expires_at < env.now + (s : Int) := by omega
      simpa using this
    | none =>
      cases hEx : expiresHeaderInstant env.parseDate (revalResult env url (some c)).headers with
      | some dt =>
        rcases hsrc with h | h
        · rw [hM] at h
          simp at h
        · rw [hEx] at h
          cases h
      | none =>
        have : c.expires_at < env.now + (cfg.forecast_default_ttl_s : Int) := by omega
        simpa using this

/-- Environment answering 304 with no caching headers (expiry falls back to
the default TTL). -/
def envC4b : Env := { envBase with oracle := fun _ => .response ⟨"u", 304, "", []⟩ }

/-- Witness for the amended C4: concrete header-free 304 keeps the payload,
records status 304, and strictly extends the past expiry. -/
theorem reval_304_payload_kept_expiry_recomputed_witness :
    ∃ c', get_forecast_cache (processForecastType envC4b {} 7 "forecast" (some "u") stC1).db
        7 "forecast" = some c' ∧
      c'.data_json = fcW.data_json ∧ c'.status_code = 304 ∧ (100 : Int) < c'.expires_at := by
  obtain ⟨c', hfind, hdata, hstatus, _, _, _, hstrict⟩ :=
    reval_304_payload_kept_expiry_recomputed envC4b {} 7 "forecast" "u" fcW stC1
      (by decide) rfl (by decide) (by decide) rfl
  exact ⟨c', hfind, hdata, hstatus, hstrict (Or.inr rfl)⟩

/- ------------------------------------------------------------------ -/
/- Claim C7: bundle ok iff grid resolution succeeds                    -/
/- ------------------------------------------------------------------ -/

/-- Failure of the `/points` miss path, as the claim words it: the point
resolution response is non-200 or unparsable/empty, or the grid cell still
cannot be loaded after the upsert. -/
def missResolutionFails (env : Env) (cfg : SvcConfig) (db : Db) (lat lon : PFloat) : Bool :=
  let res := points_fetch env lat lon
  match res.json_data with
  | some pj =>
    if res.status_code == 200 && jtruthy pj then
      match upsert_gridpoint_from_points db pj env.now with
      | .error _ => false
      | .ok (gid, db2) =>
        (get_gridpoint (insert_point_cache db2 lat lon gid none pj res.etag
            res.last_modified (compute_expires_at env.parseDate res.headers
              cfg.points_default_ttl_s env.now) env.now) gid).isNone
    else true
  | none => true

/-- Grid resolution failure for a whole call: a point-cache hit whose grid
cell loads succeeds outright; otherwise resolution goes through `/points`
and fails exactly when `missResolutionFails` does. -/
def gridResolutionFails (env : Env) (cfg : SvcConfig) (db : Db) (lat lon : PFloat) : Bool :=
  match get_nearest_cached_gridpoint env db lat lon cfg.cache_radius_m with
  | some (gid, _) =>
    match get_gridpoint db gid with
    | some _ => false
    | none => missResolutionFails env cfg db lat lon
  | none => missResolutionFails env cfg db lat lon

theorem finishBundle_no_failure (env : Env) (cfg : SvcConfig) (db : Db) (lat lon : PFloat)
    (gp : GridCell) (debug : List String) (effects : List Effect) (n : Nat)
    (r : BundleResult) (db2 : Db) (eff : List Effect)
    (h : finishBundle env cfg db lat lon gp debug effects n = (.ok r, db2, eff)) :
    ∃ out, r = .success out := by
  unfold finishBundle at h
  simp only [Prod.mk.injEq] at h
  obtain ⟨h1, -, -⟩ := h
  injection h1 with h1
  exact ⟨_, h1.symm⟩

theorem bundleAfterResolve_success (env : Env) (cfg : SvcConfig) (db : Db) (lat lon : PFloat)
    (gp : GridCell) (debug : List String) (effects : List Effect)
    (r : BundleResult) (db2 : Db) (eff : List Effect)
    (h : bundleAfterResolve env cfg db lat lon gp debug effects = (.ok r, db2, eff)) :
    ∃ out, r = .success out := by
  unfold bundleAfterResolve at h
  simp only [] at h
  split at h
  · split at h
    · split at h
      · split at h
        · simp at h
        · exact finishBundle_no_failure _ _ _ _ _ _ _ _ _ _ _ _ h
      · exact finishBundle_no_failure _ _ _ _ _ _ _ _ _ _ _ _ h
    · exact finishBundle_no_failure _ _ _ _ _ _ _ _ _ _ _ _ h
  · exact finishBundle_no_failure _ _ _ _ _ _ _ _ _ _ _ _ h

theorem tripleFailureOut (a : String) (dbg : List String) (x : Db) (y : List Effect)
    (r : BundleResult) (db2 : Db) (eff : List Effect)
    (h : ((Except.ok (BundleResult.failure a dbg) : Except String BundleResult), x, y)
      = (.ok r, db2, eff)) :
    r = .failure a dbg := by
  simp only [Prod.mk.injEq] at h
  obtain ⟨h1, -, -⟩ := h
  injection h1 with h1
  exact h1.symm

theorem bundleMissPath_failure_iff (env : Env) (cfg : SvcConfig) (db : Db) (lat lon : PFloat)
    (debug : List String) (effects : List Effect)
    (r : BundleResult) (db2 : Db) (eff : List Effect)
    (h : bundleMissPath env cfg db lat lon debug effects = (.ok r, db2, eff)) :
    (∃ e dbg, r = .failure e dbg) ↔ missResolutionFails env cfg db lat lon = true := by
  unfold bundleMissPath at h
  unfold missResolutionFails
  simp only [] at h ⊢
  cases hj : (points_fetch env lat lon).json_data with
  | none =>
    rw [hj] at h
    simp only [] at h
    have hr := tripleFailureOut _ _ _ _ _ _ _ h
    subst hr
    simp
  | some pj =>
    rw [hj] at h
    simp only [] at h ⊢
    by_cases hg : ((points_fetch env lat lon).status_code == 200 && jtruthy pj) = true
    · rw [if_pos hg] at h ⊢
      cases hup : upsert_gridpoint_from_points db pj env.now with
      | error e =>
        rw [hup] at h
        simp at h
      | ok pair =>
        obtain ⟨gid, db1⟩ := pair
        try rw [hup] at h
        try rw [hup]
        simp only [] at h ⊢
        cases hrl : get_gridpoint (insert_point_cache db1 lat lon gid none pj
            (points_fetch env lat lon).etag (points_fetch env lat lon).last_modified
            (compute_expires_at env.parseDate (points_fetch env lat lon).headers
              cfg.points_default_ttl_s env.now) env.now) gid with
        | some gp =>
          try rw [hrl] at h
          try rw [hrl]
          simp only [] at h ⊢
          obtain ⟨out, rfl⟩ := bundleAfterResolve_success _ _ _ _ _ _ _ _ _ _ _ h
          simp
        | none =>
          try rw [hrl] at h
          try rw [hrl]
          simp only [] at h ⊢
          have hr := tripleFailureOut _ _ _ _ _ _ _ h
          subst hr
          simp
    · rw [if_neg hg] at h ⊢
      have hr := tripleFailureOut _ _ _ _ _ _ _ h
      subst hr
      simp

/-- C7: a returned bundle has ok=false exactly when grid resolution itself
fails (upstream /points non-200 or unparsable, or the grid cell cannot be
loaded); a forecast type with no resource URL only records a skip in the
trace; a forecast type with no cached entry whose fetch fails gets an
in-band error marker in its product slot — neither makes the bundle
not-ok. -/
theorem bundle_ok_iff_resolution (env : Env) (cfg : SvcConfig) (db : Db) (lat lon : PFloat) :
    (∀ (r : BundleResult) (db2 : Db) (eff : List Effect),
      get_forecast_bundle env cfg db lat lon = (.ok r, db2, eff) →
      ((∃ e dbg, r = .failure e dbg) ↔ gridResolutionFails env cfg db lat lon = true)) ∧
    (∀ (env2 : Env) (cfg2 : SvcConfig) (gp : Nat) (ftype : String) (st : LoopState),
      processForecastType env2 cfg2 gp ftype none st
        = { st with debug := st.debug ++ [skipLine ftype] }) ∧
    (∀ (env2 : Env) (cfg2 : SvcConfig) (gp : Nat) (ftype u : String) (st : LoopState),
      u ≠ "" → get_forecast_cache st.db gp ftype = none →
      ((revalResult env2 u none).status_code ≠ 200 ∨
        truthyJO (revalResult env2 u none).json_data = false) →
      (processForecastType env2 cfg2 gp ftype (some u) st).data
        = st.data ++ [(ftype, errorMarker (revalResult env2 u none).status_code)]) := by
  refine ⟨?_, ?_, ?_⟩
  · intro r db2 eff h
    unfold get_forecast_bundle at h
    unfold gridResolutionFails
    cases hv : validate_lat_lon lat lon with
    | error e => rw [hv] at h; simp at h
    | ok a =>
      rw [hv] at h
      cases hp : assert_in_pa_bounds lat lon with
      | error e => rw [hp] at h; simp at h
      | ok b =>
        rw [hp] at h
        simp only [] at h
        cases hn : get_nearest_cached_gridpoint env db lat lon cfg.cache_radius_m with
        | some pair =>
          obtain ⟨gid, d⟩ := pair
          try rw [hn] at h
          simp only [] at h ⊢
          cases hg : get_gridpoint db gid with
          | some gp =>
            try rw [hg] at h
            simp only [] at h ⊢
            obtain ⟨out, rfl⟩ := bundleAfterResolve_success _ _ _ _ _ _ _ _ _ _ _ h
            simp
          | none =>
            try rw [hg] at h
            simp only [] at h ⊢
            exact bundleMissPath_failure_iff _ _ _ _ _ _ _ _ _ _ h
        | none =>
          try rw [hn] at h
          simp only [] at h ⊢
          exact bundleMissPath_failure_iff _ _ _ _ _ _ _ _ _ _ h
  · intro env2 cfg2 gp ftype st
    exact processForecastType_skip env2 cfg2 gp ftype none st rfl
  · intro env2 cfg2 gp ftype u st hurl hc hfail
    rw [processForecastType_absent env2 cfg2 gp ftype u st hurl hc,
        revalidate_none env2 cfg2 gp ftype u _]
    have hfcond : ((revalResult env2 u none).status_code != 200
        || !(truthyJO (revalResult env2 u none).json_data)) = true := by
      rcases hfail with hx | hx
      · simp [bne_iff_ne, hx]
      · simp [hx]
    rw [(afterConditional_fail_marker env2 cfg2 gp ftype u none
      (revalResult env2 u none) (revalExpiry env2 cfg2 u none) _ hfcond rfl).1]

/-- In-PA witness coordinates. -/
def latW : PFloat := .val 40

def lonW : PFloat := .val (-76)

/-- Witness for C7: with an empty store and a transport-failing upstream,
grid resolution fails and the returned bundle is the failure shape; a
`none` URL yields exactly the skip line; an uncached product with a 500
fetch gets the in-band error marker. -/
theorem bundle_ok_iff_resolution_witness :
    gridResolutionFails envBase {} dbEmpty latW lonW = true ∧
    processForecastType envBase {} 7 "hourly" none
        { db := dbEmpty, debug := [], data := [], effects := [] }
      = { db := dbEmpty, debug := [skipLine "hourly"], data := [], effects := [] } ∧
    (processForecastType envC1 {} 9 "griddata" (some "u")
        { db := dbEmpty, debug := [], data := [], effects := [] }).data
      = [("griddata", errorMarker 500)] := by
  obtain ⟨h1, h2, h3⟩ := bundle_ok_iff_resolution envBase {} dbEmpty latW lonW
  refine ⟨(h1 (.failure (pointsFailedLine 0)
      [receivedLine envBase latW lonW, validatedLine, missPointsLine]) dbEmpty
      [Effect.dbNearestLookup, Effect.netFetch (.points latW lonW)] rfl).mp
      ⟨_, _, rfl⟩, ?_, ?_⟩
  · exact h2 envBase {} 7 "hourly" { db := dbEmpty, debug := [], data := [], effects := [] }
  · exact h3 envC1 {} 9 "griddata" "u"
      { db := dbEmpty, debug := [], data := [], effects := [] }
      (by decide) rfl (Or.inl (by decide))

/- ------------------------------------------------------------------ -/
/- Claim C10: dangling gridpoint falls through to the /points path     -/
/- ------------------------------------------------------------------ -/

/-- C10: when the nearest-point lookup hits but the referenced grid cell
row cannot be loaded, resolution does not fail there: the call continues
exactly as the `/points` miss path (only the already-appended cache-hit
trace line differs from a true miss), and a hard resolution failure can
arise only from the `/points` outcome itself — /points non-200/unparsable
or a grid cell still unloadable after the upsert. -/
theorem dangling_gridpoint_falls_through (env : Env) (cfg : SvcConfig) (db : Db)
    (lat lon : PFloat) (gid : Nat) (d : ℚ)
    (hv : validate_lat_lon lat lon = .ok ())
    (hp : assert_in_pa_bounds lat lon = .ok ())
    (hn : get_nearest_cached_gridpoint env db lat lon cfg.cache_radius_m = some (gid, d))
    (hg : get_gridpoint db gid = none) :
    get_forecast_bundle env cfg db lat lon
      = bundleMissPath env cfg db lat lon
          [receivedLine env lat lon, validatedLine, cacheHitLine gid d]
          [Effect.dbNearestLookup, Effect.dbGetGridpoint gid] ∧
    (∀ (dbg0 : List String) (eff0 : List Effect) (r : BundleResult) (db2 : Db)
        (eff : List Effect),
      bundleMissPath env cfg db lat lon dbg0 eff0 = (.ok r, db2, eff) →
      ((∃ e dbg, r = .failure e dbg) ↔ missResolutionFails env cfg db lat lon = true)) := by
  constructor
  · unfold get_forecast_bundle
    rw [hv, hp]
    simp only []
    rw [hn]
    simp only []
    rw [hg]
    rfl
  · intro dbg0 eff0 r db2 eff h
    exact bundleMissPath_failure_iff env cfg db lat lon dbg0 eff0 r db2 eff h

/-- A point-cache entry referring to a gridpoint id (42) that has no row. -/
def pceW : PointCacheEntry :=
  { lat := latW, lon := lonW, gridpoint_id := 42, distance_m := some 0,
    raw_json := .jobj [("a", .jnum 1)], etag := none, last_modified := none,
    fetched_at := 0, expires_at := 2000 }

/-- Store holding only the dangling point-cache entry. -/
def dbW10 : Db := { dbEmpty with point_cache := [pceW] }

/-- Witness for C10 at the dangling entry: the whole call equals the miss
path continuation. -/
theorem dangling_gridpoint_falls_through_witness :
    get_forecast_bundle envBase {} dbW10 latW lonW
      = bundleMissPath envBase {} dbW10 latW lonW
          [receivedLine envBase latW lonW, validatedLine, cacheHitLine 42 0]
          [Effect.dbNearestLookup, Effect.dbGetGridpoint 42] :=
  (dangling_gridpoint_falls_through envBase {} dbW10 latW lonW 42 0 rfl rfl rfl rfl).1

/- ------------------------------------------------------------------ -/
/- Claim C6: point-cache insert on a /points miss (corrected)          -/
/- ------------------------------------------------------------------ -/

theorem applyGridUpsert_point_cache (db : Db) (pj : JVal) (gf : GridFields) (now : Int) :
    (applyGridUpsert db pj gf now).2.point_cache = db.point_cache ∧
    (applyGridUpsert db pj gf now).2.forecasts = db.forecasts := by
  unfold applyGridUpsert
  split <;> exact ⟨rfl, rfl⟩

theorem find_append_singleton_isSome {α : Type} (l : List α) (p : α → Bool) (row : α)
    (hrow : p row = true) : ((l ++ [row]).find? p).isSome = true := by
  induction l with
  | nil => simp [List.find?_cons, hrow]
  | cons x xs ih =>
    cases hx : p x with
    | true => simp [List.find?_cons, hx]
    | false =>
      simp only [List.cons_append, List.find?_cons, hx]
      exact ih

theorem find_id_in_map (l : List GridCell) (knat : GridCell → Bool) (upd : GridCell)
    (old : GridCell) (hmem : old ∈ l) (hk : knat old = true) (hid : upd.id = old.id) :
    ((l.map (fun g => if knat g then upd else g)).find?
        (fun g => g.id == old.id)).isSome = true := by
  induction l with
  | nil => cases hmem
  | cons x xs ih =>
    rcases List.mem_cons.mp hmem with rfl | hmem2
    · rw [List.map_cons, if_pos hk]
      simp [List.find?_cons, hid]
    · rw [List.map_cons]
      cases hkx : knat x with
      | true => simp [List.find?_cons, hid]
      | false =>
        simp only [show (if false = true then upd else x) = x from rfl]
        cases hpx : (x.id == old.id) with
        | true => simp [List.find?_cons, hpx]
        | false =>
          simp only [List.find?_cons, hpx]
          exact ih hmem2

theorem applyGridUpsert_loadable (db : Db) (pj : JVal) (gf : GridFields) (now : Int) :
    (get_gridpoint (applyGridUpsert db pj gf now).2 (applyGridUpsert db pj gf now).1).isSome
      = true := by
  unfold applyGridUpsert get_gridpoint
  cases hf : db.gridpoints.find? (fun g =>
      g.grid_id == gf.grid_id && g.grid_x == gf.grid_x && g.grid_y == gf.grid_y) with
  | some old =>
    have hmem : old ∈ db.gridpoints := List.mem_of_find?_eq_some hf
    have hp := List.find?_some hf
    simp only [] at hp
    simp only []
    exact find_id_in_map db.gridpoints _ _ old hmem hp rfl
  | none =>
    simp only []
    exact find_append_singleton_isSome db.gridpoints _ _ (by simp)

theorem upsert_gridpoint_ok_core (db : Db) (pj : JVal) (now : Int) (gid : Nat) (db1 : Db)
    (h : upsert_gridpoint_from_points db pj now = .ok (gid, db1)) :
    db1.point_cache = db.point_cache ∧ db1.forecasts = db.forecasts ∧
    (get_gridpoint db1 gid).isSome = true := by
  unfold upsert_gridpoint_from_points at h
  cases hp : parseGridFields pj with
  | error e => rw [hp] at h; simp [bind, Except.bind] at h
  | ok gf =>
    rw [hp] at h
    simp only [bind, Except.bind, pure, Except.pure] at h
    injection h with h
    obtain ⟨hg, hdb⟩ := (Prod.mk.injEq _ _ _ _).mp h.symm
    subst hg
    subst hdb
    exact ⟨(applyGridUpsert_point_cache db pj gf now).1,
           (applyGridUpsert_point_cache db pj gf now).2,
           applyGridUpsert_loadable db pj gf now⟩

theorem applyStationUpsert_core (db : Db) (g i : Nat) (f : JVal) (ident : String)
    (name : Option String) (geog? : Option (ℚ × ℚ)) (now : Int) :
    (applyStationUpsert db g i f ident name geog? now).point_cache = db.point_cache ∧
    (applyStationUpsert db g i f ident name geog? now).gridpoints = db.gridpoints ∧
    (applyStationUpsert db g i f ident name geog? now).forecasts = db.forecasts := by
  unfold applyStationUpsert
  simp only []
  cases hf : db.stations.find? (fun s => s.station_identifier == ident) with
  | some old =>
    simp only []
    split <;> exact ⟨rfl, rfl, rfl⟩
  | none =>
    simp only []
    split <;> exact ⟨rfl, rfl, rfl⟩

theorem upsertOneStation_core (db : Db) (g i : Nat) (f : JVal) (now : Int) (b : Bool)
    (db2 : Db) (h : upsertOneStation db g i f now = .ok (b, db2)) :
    db2.point_cache = db.point_cache ∧ db2.gridpoints = db.gridpoints ∧
    db2.forecasts = db.forecasts := by
  unfold upsertOneStation at h
  cases hp : parseStationFeature f with
  | error e => rw [hp] at h; simp [bind, Except.bind] at h
  | ok o =>
    rw [hp] at h
    simp only [bind, Except.bind] at h
    cases o with
    | none =>
      simp only [pure, Except.pure] at h
      injection h with h
      obtain ⟨-, hdb⟩ := (Prod.mk.injEq _ _ _ _).mp h.symm
      subst hdb
      exact ⟨rfl, rfl, rfl⟩
    | some trip =>
      obtain ⟨ident, name, geog?⟩ := trip
      simp only [pure, Except.pure] at h
      injection h with h
      obtain ⟨-, hdb⟩ := (Prod.mk.injEq _ _ _ _).mp h.symm
      subst hdb
      exact applyStationUpsert_core db g i f ident name geog? now

theorem stationsLoop_core (g : Nat) (now : Int) (fs : List JVal) :
    ∀ (i linked : Nat) (db : Db) (n : Nat) (db2 : Db),
    stationsLoop g now fs i linked db = .ok (n, db2) →
    db2.point_cache = db.point_cache ∧ db2.gridpoints = db.gridpoints ∧
    db2.forecasts = db.forecasts := by
  induction fs with
  | nil =>
    intro i linked db n db2 h
    unfold stationsLoop at h
    injection h with h
    obtain ⟨-, hdb⟩ := (Prod.mk.injEq _ _ _ _).mp h.symm
    subst hdb
    exact ⟨rfl, rfl, rfl⟩
  | cons f rest ih =>
    intro i linked db n db2 h
    unfold stationsLoop at h
    cases hu : upsertOneStation db g i f now with
    | error e => rw [hu] at h; simp [bind, Except.bind] at h
    | ok pr =>
      obtain ⟨did, dbm⟩ := pr
      rw [hu] at h
      simp only [bind, Except.bind] at h
      obtain ⟨h1, h2, h3⟩ := upsertOneStation_core db g i f now did dbm hu
      obtain ⟨g1, g2, g3⟩ := ih (i + 1) (if did then linked + 1 else linked) dbm n db2 h
      exact ⟨g1.trans h1, g2.trans h2, g3.trans h3⟩

theorem upsert_stations_core (db : Db) (g : Nat) (sj : JVal) (now : Int) (n : Nat) (db2 : Db)
    (h : upsert_stations_for_gridpoint db g sj now = .ok (n, db2)) :
    db2.point_cache = db.point_cache ∧ db2.gridpoints = db.gridpoints ∧
    db2.forecasts = db.forecasts := by
  unfold upsert_stations_for_gridpoint at h
  cases hf : pyGetOpt sj "features" with
  | error e => rw [hf] at h; simp [bind, Except.bind] at h
  | ok o =>
    rw [hf] at h
    simp only [bind, Except.bind, pure, Except.pure] at h
    rcases o with - | v
    · simp only [] at h
      exact stationsLoop_core g now [] 0 0 db n db2 h
    · simp only [] at h
      by_cases ht : jtruthy v = true
      · rw [if_pos ht] at h
        cases v with
        | jarr fs => exact stationsLoop_core g now fs 0 0 db n db2 h
        | jnull => simp [jtruthy] at ht
        | jbool bb =>
          simp only [] at h
          injection h with h
          obtain ⟨-, hdb⟩ := (Prod.mk.injEq _ _ _ _).mp h.symm
          subst hdb
          exact ⟨rfl, rfl, rfl⟩
        | jnum q =>
          simp only [] at h
          injection h with h
          obtain ⟨-, hdb⟩ := (Prod.mk.injEq _ _ _ _).mp h.symm
          subst hdb
          exact ⟨rfl, rfl, rfl⟩
        | jstr s =>
          simp only [] at h
          injection h with h
          obtain ⟨-, hdb⟩ := (Prod.mk.injEq _ _ _ _).mp h.symm
          subst hdb
          exact ⟨rfl, rfl, rfl⟩
        | jobj fields =>
          simp only [] at h
          injection h with h
          obtain ⟨-, hdb⟩ := (Prod.mk.injEq _ _ _ _).mp h.symm
          subst hdb
          exact ⟨rfl, rfl, rfl⟩
      · rw [if_neg ht] at h
        simp only [] at h
        exact stationsLoop_core g now [] 0 0 db n db2 h

theorem afterConditional_dbs (env : Env) (cfg : SvcConfig) (gp : Nat)
    (ftype url : String) (cached : Option ForecastCacheEntry) (res : NwsFetchResult)
    (exp : Int) (st : LoopState) :
    (afterConditional env cfg gp ftype url cached res exp st).db.point_cache
      = st.db.point_cache ∧
    (afterConditional env cfg gp ftype url cached res exp st).db.gridpoints
      = st.db.gridpoints := by
  by_cases hf : (res.status_code != 200 || !(truthyJO res.json_data)) = true
  · rw [(afterConditional_fail_db env cfg gp ftype url cached res exp st hf).1]
    exact ⟨rfl, rfl⟩
  · unfold afterConditional
    rw [if_neg hf]
    cases hj : res.json_data with
    | some body =>
      simp only []
      exact ⟨upsert_forecast_cache_point_cache st.db gp ftype url body 200 none
               res.etag res.last_modified exp env.now,
             upsert_forecast_cache_gridpoints st.db gp ftype url body 200 none
               res.etag res.last_modified exp env.now⟩
    | none => exact ⟨rfl, rfl⟩

theorem revalidate_dbs (env : Env) (cfg : SvcConfig) (gp : Nat) (ftype url : String)
    (cached : Option ForecastCacheEntry) (st : LoopState) :
    (revalidate env cfg gp ftype url cached st).db.point_cache = st.db.point_cache ∧
    (revalidate env cfg gp ftype url cached st).db.gridpoints = st.db.gridpoints := by
  unfold revalidate
  simp only []
  cases cached with
  | none => exact afterConditional_dbs env cfg gp ftype url none _ _ _
  | some c =>
    simp only []
    by_cases h3 : ((revalResult env url (some c)).status_code == 304
        && jtruthy c.data_json) = true
    · rw [if_pos h3]
      simp only []
      exact ⟨upsert_forecast_cache_point_cache _ _ _ _ _ _ _ _ _ _ _,
             upsert_forecast_cache_gridpoints _ _ _ _ _ _ _ _ _ _ _⟩
    · rw [if_neg h3]
      exact afterConditional_dbs env cfg gp ftype url (some c) _ _ _

theorem processForecastType_dbs (env : Env) (cfg : SvcConfig) (gp : Nat) (ftype : String)
    (url? : Option String) (st : LoopState) :
    (processForecastType env cfg gp ftype url? st).db.point_cache = st.db.point_cache ∧
    (processForecastType env cfg gp ftype url? st).db.gridpoints = st.db.gridpoints := by
  unfold processForecastType
  by_cases hu : (!(truthyS url?)) = true
  · rw [if_pos hu]
    exact ⟨rfl, rfl⟩
  · rw [if_neg hu]
    simp only []
    cases hc : get_forecast_cache st.db gp ftype with
    | some c =>
      simp only []
      by_cases hfresh : env.now < c.expires_at
      · rw [if_pos hfresh]
        exact ⟨rfl, rfl⟩
      · rw [if_neg hfresh]
        exact revalidate_dbs env cfg gp ftype (url?.getD "") (some c) _
    | none =>
      simp only []
      exact revalidate_dbs env cfg gp ftype (url?.getD "") none _

theorem finishBundle_dbs (env : Env) (cfg : SvcConfig) (db : Db) (lat lon : PFloat)
    (gp : GridCell) (debug : List String) (effects : List Effect) (n : Nat) :
    (finishBundle env cfg db lat lon gp debug effects n).2.1.point_cache
      = db.point_cache ∧
    (finishBundle env cfg db lat lon gp debug effects n).2.1.gridpoints
      = db.gridpoints := by
  unfold finishBundle
  simp only []
  obtain ⟨a3, b3⟩ := processForecastType_dbs env cfg gp.id "griddata"
    gp.forecast_griddata_url
    (processForecastType env cfg gp.id "hourly" gp.forecast_hourly_url
      (processForecastType env cfg gp.id "forecast" gp.forecast_url
        { db := db, debug := debug, data := [], effects := effects }))
  obtain ⟨a2, b2⟩ := processForecastType_dbs env cfg gp.id "hourly" gp.forecast_hourly_url
    (processForecastType env cfg gp.id "forecast" gp.forecast_url
      { db := db, debug := debug, data := [], effects := effects })
  obtain ⟨a1, b1⟩ := processForecastType_dbs env cfg gp.id "forecast" gp.forecast_url
    { db := db, debug := debug, data := [], effects := effects }
  exact ⟨(a3.trans a2).trans a1, (b3.trans b2).trans b1⟩

theorem bundleAfterResolve_dbs (env : Env) (cfg : SvcConfig) (db : Db) (lat lon : PFloat)
    (gp : GridCell) (debug : List String) (effects : List Effect) :
    (bundleAfterResolve env cfg db lat lon gp debug effects).2.1.point_cache
      = db.point_cache ∧
    (bundleAfterResolve env cfg db lat lon gp debug effects).2.1.gridpoints
      = db.gridpoints := by
  unfold bundleAfterResolve
  by_cases hs : truthyS gp.observation_stations_url = true
  · rw [if_pos hs]
    simp only []
    cases hj : (fetch_json env (gp.observation_stations_url.getD "") none none).json_data with
    | none => exact finishBundle_dbs env cfg db lat lon gp _ _ 0
    | some sj =>
      simp only []
      by_cases hok : ((fetch_json env (gp.observation_stations_url.getD "") none
          none).status_code == 200 && jtruthy sj) = true
      · rw [if_pos hok]
        cases hup : upsert_stations_for_gridpoint db gp.id sj env.now with
        | error e => exact ⟨rfl, rfl⟩
        | ok pr =>
          obtain ⟨linked, db2⟩ := pr
          simp only []
          obtain ⟨p1, p2, -⟩ := upsert_stations_core db gp.id sj env.now linked db2 hup
          exact ⟨((finishBundle_dbs env cfg db2 lat lon gp _ _ linked).1).trans p1,
                 ((finishBundle_dbs env cfg db2 lat lon gp _ _ linked).2).trans p2⟩
      · rw [if_neg hok]
        exact finishBundle_dbs env cfg db lat lon gp _ _ 0
  · rw [if_neg hs]
    exact finishBundle_dbs env cfg db lat lon gp _ _ 0

theorem get_gridpoint_insert (db : Db) (lat lon : PFloat) (g : Nat) (d : Option ℚ)
    (pj : JVal) (e : Option String) (lm : Option Int) (exp now : Int) (g2 : Nat) :
    get_gridpoint (insert_point_cache db lat lon g d pj e lm exp now) g2
      = get_gridpoint db g2 := rfl

/-- The point-cache row the `/points` miss path inserts for a query point
resolved to gridpoint `gid` via payload `pj` (validators and expiry from
the `/points` response; `distance_m` is `NULL`, as in the call site). -/
def pointRowC6 (env : Env) (cfg : SvcConfig) (lat lon : PFloat) (gid : Nat) (pj : JVal) :
    PointCacheEntry :=
  { lat := lat, lon := lon, gridpoint_id := gid, distance_m := none, raw_json := pj,
    etag := (points_fetch env lat lon).etag,
    last_modified := (points_fetch env lat lon).last_modified,
    fetched_at := env.now,
    expires_at := compute_expires_at env.parseDate (points_fetch env lat lon).headers
      cfg.points_default_ttl_s env.now }

theorem bundleMissPath_insert (env : Env) (cfg : SvcConfig) (db : Db) (lat lon : PFloat)
    (debug : List String) (effects : List Effect) (pj : JVal) (gid : Nat) (db1 : Db)
    (hjson : (points_fetch env lat lon).json_data = some pj)
    (hok : ((points_fetch env lat lon).status_code == 200 && jtruthy pj) = true)
    (hup : upsert_gridpoint_from_points db pj env.now = .ok (gid, db1)) :
    (bundleMissPath env cfg db lat lon debug effects).2.1.point_cache
      = db.point_cache ++ [pointRowC6 env cfg lat lon gid pj] ∧
    (bundleMissPath env cfg db lat lon debug effects).2.1.gridpoints = db1.gridpoints ∧
    (get_gridpoint db1 gid).isSome = true := by
  obtain ⟨hpc, hfc, hload⟩ := upsert_gridpoint_ok_core db pj env.now gid db1 hup
  unfold bundleMissPath
  try simp only []
  rw [hjson]
  try simp only []
  rw [if_pos hok]
  try simp only []
  rw [hup]
  try simp only []
  rw [get_gridpoint_insert]
  cases hg : get_gridpoint db1 gid with
  | none =>
    rw [hg] at hload
    simp at hload
  | some gp =>
    simp only []
    refine ⟨((bundleAfterResolve_dbs env cfg _ lat lon gp _ _).1).trans ?_,
            ((bundleAfterResolve_dbs env cfg _ lat lon gp _ _).2).trans ?_, rfl⟩
    · show db1.point_cache ++ [pointRowC6 env cfg lat lon gid pj]
        = db.point_cache ++ [pointRowC6 env cfg lat lon gid pj]
      rw [hpc]
    · rfl

/-- Parsed `/points` body used by the C6 run: grid identity only, no
resource URLs. -/
def gridJsonC6 : JVal :=
  .jobj [("properties", .jobj
    [("gridId", .jstr "PHI"), ("gridX", .jnum 45), ("gridY", .jnum 76)])]

/-- Environment whose `/points` endpoint answers 200 with that body and
whose other endpoints fail. -/
def envC6 : Env :=
  { envBase with
    parseJson := fun s => if s = "GRID" then .ok gridJsonC6 else pjW s,
    oracle := fun req =>
      match req with
      | .points _ _ => .response ⟨"pu", 200, "GRID", []⟩
      | _ => .transportError "ConnectError: boom" }

/-- The grid cell the C6 run upserts. -/
def gcC6 : GridCell :=
  { id := 1, grid_id := "PHI", grid_x := 45, grid_y := 76,
    forecast_url := none, forecast_hourly_url := none, forecast_griddata_url := none,
    observation_stations_url := none, time_zone := none, radar_station := none,
    raw_json := gridJsonC6, updated_at := 1000 }

/-- The store after the C6 gridpoint upsert. -/
def db1C6 : Db := { dbEmpty with gridpoints := [gcC6], next_gridpoint_id := 2 }

/-- Counterexample to the spec's `distance = 0`: a concrete full run of the
miss path stores the new point-cache row with `distance_m = NULL`
(`insert_point_cache` is called with `distance_m=None`), not `0`. -/
theorem point_cache_distance_none_cex :
    ((get_forecast_bundle envC6 {} dbEmpty latW lonW).2.1.point_cache.map
        (fun p => p.distance_m)) = [none] ∧
    (none : Option ℚ) ≠ some 0 :=
  ⟨rfl, fun h => Option.noConfusion h⟩

/-- C6 (amended): on a valid in-bounds query whose point-cache lookup
misses, when `/points` answers 200 with a truthy parsed object body and
the gridpoint upsert succeeds, the natural-key-upserted grid cell is
loadable by the returned id, and the call appends exactly one new
point-cache row for this query point, carrying the response validators and
an expiry computed from the response headers with the long points default
TTL — but with stored distance `NULL` (`distance_m = none`), not `0` as
the spec words it.  No other write of the call touches `point_cache`, and
the forecast loop leaves `gridpoints` as the upsert left it. -/
theorem point_cache_insert_on_miss (env : Env) (cfg : SvcConfig) (db : Db)
    (lat lon : PFloat) (pj : JVal) (gid : Nat) (db1 : Db)
    (hval : validate_lat_lon lat lon = .ok ())
    (hpa : assert_in_pa_bounds lat lon = .ok ())
    (hmiss : get_nearest_cached_gridpoint env db lat lon cfg.cache_radius_m = none)
    (hjson : (points_fetch env lat lon).json_data = some pj)
    (hok : ((points_fetch env lat lon).status_code == 200 && jtruthy pj) = true)
    (hup : upsert_gridpoint_from_points db pj env.now = .ok (gid, db1)) :
    (get_forecast_bundle env cfg db lat lon).2.1.point_cache
      = db.point_cache ++ [pointRowC6 env cfg lat lon gid pj] ∧
    (get_forecast_bundle env cfg db lat lon).2.1.gridpoints = db1.gridpoints ∧
    (get_gridpoint db1 gid).isSome = true ∧
    (pointRowC6 env cfg lat lon gid pj).distance_m = none := by
  unfold get_forecast_bundle
  rw [hval, hpa]
  simp only []
  rw [hmiss]
  simp only []
  obtain ⟨a, b, c⟩ := bundleMissPath_insert env cfg db lat lon
    [receivedLine env lat lon, validatedLine] [Effect.dbNearestLookup] pj gid db1
    hjson hok hup
  exact ⟨a, b, c, rfl⟩

/-- Witness for C6 at a concrete in-PA query against the empty store. -/
theorem point_cache_insert_on_miss_witness :
    (get_forecast_bundle envC6 {} dbEmpty latW lonW).2.1.point_cache
      = [pointRowC6 envC6 {} latW lonW 1 gridJsonC6] ∧
    (get_forecast_bundle envC6 {} dbEmpty latW lonW).2.1.gridpoints = db1C6.gridpoints ∧
    (get_gridpoint db1C6 1).isSome = true ∧
    (pointRowC6 envC6 {} latW lonW 1 gridJsonC6).distance_m = none := by
  obtain ⟨a, b, c, d⟩ := point_cache_insert_on_miss envC6 {} dbEmpty latW lonW gridJsonC6 1
    db1C6 rfl rfl rfl rfl rfl rfl
  exact ⟨a, b, c, d⟩
